import Mathlib

/-!
Verification development for the ClaudeCity simulation engine.

The definitions below are a shallow embedding of the repository's
JavaScript sources (`Tile.js`, `City.js`, `Simulation.js`,
`constants.js`): the tile data model, the city grid, and the per-tick
simulation passes that the claims speak about.  JS numbers are embedded
as `Nat` where the code only ever holds non-negative integers and as
`Rat` where fractional arithmetic occurs; JS arrays indexed by
coordinates are embedded as total functions out of `Nat × Nat` guarded
by the same bounds checks the code performs; dynamic method dispatch is
embedded by a method table so that calls to methods the `Tile` class
does not define are visible as errors, exactly as in JS.
-/

set_option autoImplicit false

namespace ClaudeCity

/-! ### Constants (`constants.js`) -/

-- `TILE_TYPES` from `constants.js`.
namespace TILE_TYPES

def EMPTY : Nat := 0
def WATER : Nat := 1
def FOREST : Nat := 2
def ROAD : Nat := 3
def POWER_LINE : Nat := 4
def RAIL : Nat := 5
def PARK : Nat := 6
def ZONE_RESIDENTIAL : Nat := 10
def ZONE_COMMERCIAL : Nat := 11
def ZONE_INDUSTRIAL : Nat := 12
def BUILDING_RESIDENTIAL : Nat := 20
def BUILDING_COMMERCIAL : Nat := 21
def BUILDING_INDUSTRIAL : Nat := 22
def COAL_POWER : Nat := 30
def NUCLEAR_POWER : Nat := 31
def POLICE : Nat := 32
def FIRE : Nat := 33
def STADIUM : Nat := 34
def SEAPORT : Nat := 35
def AIRPORT : Nat := 36
def RUBBLE : Nat := 99
def FIRE_BURNING : Nat := 100
def FLOOD : Nat := 101
def NUCLEAR_WASTE : Nat := 102

end TILE_TYPES

/-- Zone kinds: the three values `zoneType` ranges over. -/
inductive ZoneType where
  | residential
  | commercial
  | industrial
deriving DecidableEq, Repr

/-- Land value classes (`LAND_VALUE_CLASS`). -/
inductive ZClass where
  | low
  | mid
  | upper
  | high
deriving DecidableEq, Repr

/-- JS `ZONE_MAX_LEVELS` from `constants.js`. -/
def ZONE_MAX_LEVELS : ZoneType → Nat
  | .residential => 9
  | .commercial => 5
  | .industrial => 4

/-- JS `RESIDENTIAL_POPULATION[level] || 0` from `constants.js`. -/
def RESIDENTIAL_POPULATION : Nat → Nat
  | 0 => 0 | 1 => 8 | 2 => 24 | 3 => 64 | 4 => 128
  | 5 => 256 | 6 => 512 | 7 => 768 | 8 => 1280 | 9 => 1920
  | _ => 0

/-- JS `COMMERCIAL_JOBS[level] || 0` from `constants.js`. -/
def COMMERCIAL_JOBS : Nat → Nat
  | 0 => 0 | 1 => 392 | 2 => 784 | 3 => 1176 | 4 => 1568 | 5 => 1960
  | _ => 0

/-- JS `INDUSTRIAL_JOBS[level] || 0` from `constants.js`. -/
def INDUSTRIAL_JOBS : Nat → Nat
  | 0 => 0 | 1 => 160 | 2 => 320 | 3 => 480 | 4 => 640
  | _ => 0

/-- JS `COMMERCIAL_LAND_VALUE_REQUIREMENTS[nextLevel] || 0` from `constants.js`. -/
def COMMERCIAL_LAND_VALUE_REQUIREMENTS : Nat → Nat
  | 1 => 0 | 2 => 40 | 3 => 80 | 4 => 120 | 5 => 160
  | _ => 0

/-- JS `LAND_VALUE_THRESHOLDS` from `constants.js`. -/
def LAND_VALUE_THRESHOLDS_MID : Nat := 30
def LAND_VALUE_THRESHOLDS_UPPER : Nat := 80
def LAND_VALUE_THRESHOLDS_HIGH : Nat := 150

/-- JS `POWER_OUTPUT` from `constants.js` (coal 200, nuclear 500). -/
def POWER_OUTPUT_COAL : Nat := 200
def POWER_OUTPUT_NUCLEAR : Nat := 500

/-- JS `SERVICE_RADIUS` from `constants.js` (police 15, fire 15). -/
def SERVICE_RADIUS_POLICE : Nat := 15
def SERVICE_RADIUS_FIRE : Nat := 15

/-- JS `POLLUTION_VALUES` from `constants.js`. -/
def POLLUTION_VALUES_INDUSTRIAL : Nat := 50
def POLLUTION_VALUES_COAL_POWER : Nat := 60
def POLLUTION_VALUES_SEAPORT : Nat := 60
def POLLUTION_VALUES_AIRPORT : Nat := 60
def POLLUTION_VALUES_FIRE : Nat := 60
def POLLUTION_VALUES_NUCLEAR_WASTE : Nat := 250

/-- JS `POLLUTION_DIFFUSION` from `constants.js`. -/
def POLLUTION_DIFFUSION_FACTOR : ℚ := 1 / 4
def POLLUTION_DIFFUSION_PASSES : Nat := 2
def POLLUTION_DIFFUSION_MAX_VALUE : ℚ := 255

/-- JS `GAME_CONSTANTS.ZONE_SIZE` (zones are 3×3). -/
def ZONE_SIZE : Nat := 3

/-- JS `GAME_CONSTANTS.BUILDING_SIZES[buildingType]`: `none` models a
missing key (the JS lookup returning `undefined`). -/
def BUILDING_SIZES : String → Option (Nat × Nat)
  | "coal-power" => some (4, 4)
  | "nuclear-power" => some (4, 4)
  | "police" => some (3, 3)
  | "fire" => some (3, 3)
  | "stadium" => some (4, 4)
  | "seaport" => some (4, 4)
  | "airport" => some (6, 6)
  | _ => none

/-! ### The tile data model (`Tile.js`) -/

/-- One grid cell, with the fields the `Tile` constructor initializes.
JS booleans are `Bool`; nullable fields are `Option`; the scalar fields
that only ever hold non-negative integers are `Nat`; `crime` and
`fireRisk`, which `updateServices` sets to fractional values, are `Rat`. -/
structure Tile where
  x : Nat
  y : Nat
  type : Nat
  zoneType : Option ZoneType
  level : Nat
  density : Nat
  zoneClass : Option ZClass
  powered : Bool
  roadAccess : Bool
  buildingId : Option Nat
  isMainTile : Bool
  buildingWidth : Nat
  buildingHeight : Nat
  landValue : Nat
  pollution : Nat
  crime : ℚ
  traffic : Nat
  fireRisk : ℚ
  population : Nat
  jobs : Nat
deriving DecidableEq, Repr

/-- The `Tile` constructor: `new Tile(x, y)`. -/
def Tile.new (x y : Nat) : Tile where
  x := x
  y := y
  type := TILE_TYPES.EMPTY
  zoneType := none
  level := 0
  density := 0
  zoneClass := none
  powered := false
  roadAccess := false
  buildingId := none
  isMainTile := false
  buildingWidth := 1
  buildingHeight := 1
  landValue := 50
  pollution := 0
  crime := 0
  traffic := 0
  fireRisk := 0
  population := 0
  jobs := 0

namespace Tile

def isEmpty (t : Tile) : Bool := t.type == TILE_TYPES.EMPTY
def isWater (t : Tile) : Bool := t.type == TILE_TYPES.WATER
def isForest (t : Tile) : Bool := t.type == TILE_TYPES.FOREST
def isRoad (t : Tile) : Bool := t.type == TILE_TYPES.ROAD
def isPowerLine (t : Tile) : Bool := t.type == TILE_TYPES.POWER_LINE
def isRail (t : Tile) : Bool := t.type == TILE_TYPES.RAIL
def isPark (t : Tile) : Bool := t.type == TILE_TYPES.PARK
def isBurning (t : Tile) : Bool := t.type == TILE_TYPES.FIRE_BURNING
def isFlooded (t : Tile) : Bool := t.type == TILE_TYPES.FLOOD
def isRubble (t : Tile) : Bool := t.type == TILE_TYPES.RUBBLE

def isZone (t : Tile) : Bool :=
  t.type == TILE_TYPES.ZONE_RESIDENTIAL ||
  t.type == TILE_TYPES.ZONE_COMMERCIAL ||
  t.type == TILE_TYPES.ZONE_INDUSTRIAL

def isBuilding (t : Tile) : Bool :=
  t.type == TILE_TYPES.BUILDING_RESIDENTIAL ||
  t.type == TILE_TYPES.BUILDING_COMMERCIAL ||
  t.type == TILE_TYPES.BUILDING_INDUSTRIAL

def isResidential (t : Tile) : Bool :=
  t.type == TILE_TYPES.ZONE_RESIDENTIAL ||
  t.type == TILE_TYPES.BUILDING_RESIDENTIAL

def isCommercial (t : Tile) : Bool :=
  t.type == TILE_TYPES.ZONE_COMMERCIAL ||
  t.type == TILE_TYPES.BUILDING_COMMERCIAL

def isIndustrial (t : Tile) : Bool :=
  t.type == TILE_TYPES.ZONE_INDUSTRIAL ||
  t.type == TILE_TYPES.BUILDING_INDUSTRIAL

def isPowerPlant (t : Tile) : Bool :=
  t.type == TILE_TYPES.COAL_POWER || t.type == TILE_TYPES.NUCLEAR_POWER

def isService (t : Tile) : Bool :=
  t.type == TILE_TYPES.POLICE || t.type == TILE_TYPES.FIRE

def isSpecialBuilding (t : Tile) : Bool :=
  30 ≤ t.type && t.type < 40

def conductsPower (t : Tile) : Bool :=
  t.isRoad || t.isPowerLine || t.isZone || t.isBuilding || t.isSpecialBuilding

def providesRoadAccess (t : Tile) : Bool := t.isRoad || t.isRail

def canBuildOn (t : Tile) : Bool := t.isEmpty || t.isForest

def canBulldoze (t : Tile) : Bool := !t.isWater && !t.isEmpty && !t.isFlooded

def isFlammable (t : Tile) : Bool :=
  t.isForest || t.isBuilding || t.isZone || t.isSpecialBuilding || t.isPark

/-- JS `getMaxLevel()`: `ZONE_MAX_LEVELS[this.zoneType] || 0`, and 0 when
`zoneType` is null. -/
def getMaxLevel (t : Tile) : Nat :=
  match t.zoneType with
  | none => 0
  | some z => ZONE_MAX_LEVELS z

/-- JS `getEffectiveLandValue()`: `max(0, landValue - floor(pollution * 0.5))`.
With `Nat` truncated subtraction the outer `max 0` is implicit. -/
def getEffectiveLandValue (t : Tile) : Nat :=
  t.landValue - t.pollution / 2

/-- JS `calculateZoneClass()`: bucket the effective land value at the
`LAND_VALUE_THRESHOLDS`. -/
def calculateZoneClass (t : Tile) : ZClass :=
  let effectiveLandValue := t.getEffectiveLandValue
  if LAND_VALUE_THRESHOLDS_HIGH ≤ effectiveLandValue then .high
  else if LAND_VALUE_THRESHOLDS_UPPER ≤ effectiveLandValue then .upper
  else if LAND_VALUE_THRESHOLDS_MID ≤ effectiveLandValue then .mid
  else .low

/-- JS `isHighClass()`. -/
def isHighClass (t : Tile) : Bool := t.zoneClass == some ZClass.high

/-- JS `isMaxLevel()`. -/
def isMaxLevel (t : Tile) : Bool := t.getMaxLevel ≤ t.level

/-- JS `updateStats()`: recompute population/jobs from the level tables. -/
def updateStats (t : Tile) : Tile :=
  if t.isResidential then
    { t with population := RESIDENTIAL_POPULATION t.level, jobs := 0 }
  else if t.isCommercial then
    { t with population := 0, jobs := COMMERCIAL_JOBS t.level }
  else if t.isIndustrial then
    { t with population := 0, jobs := INDUSTRIAL_JOBS t.level }
  else t

/-- JS `updateZoneClass()` for the non-industrial branch; industrial zones
draw a coin flip instead, which callers pass in as `coin`. -/
def updateZoneClass (t : Tile) (coin : Bool) : Tile :=
  if t.isBuilding || t.isZone then
    if t.isIndustrial then
      { t with zoneClass := some (if coin then ZClass.low else ZClass.high) }
    else
      { t with zoneClass := some t.calculateZoneClass }
  else t

/-- JS `increaseLevel()`. -/
def increaseLevel (t : Tile) : Tile :=
  if t.level < t.getMaxLevel then
    let t := { t with level := t.level + 1 }
    let t := { t with density := t.level }
    t.updateStats
  else t

/-- JS `decreaseLevel()`. -/
def decreaseLevel (t : Tile) : Tile :=
  if 0 < t.level then
    let t := { t with level := t.level - 1 }
    let t := { t with density := t.level }
    t.updateStats
  else t

/-- JS `develop()`: zone tile becomes the corresponding building tile. -/
def develop (t : Tile) : Tile :=
  if t.isZone then
    if t.type == TILE_TYPES.ZONE_RESIDENTIAL then
      { t with type := TILE_TYPES.BUILDING_RESIDENTIAL }
    else if t.type == TILE_TYPES.ZONE_COMMERCIAL then
      { t with type := TILE_TYPES.BUILDING_COMMERCIAL }
    else
      { t with type := TILE_TYPES.BUILDING_INDUSTRIAL }
  else t

/-- JS `clear()`: reset to an empty tile, keeping the scalar metric fields
(`landValue`, `pollution`, `crime`, `traffic`, `fireRisk`) as the code does. -/
def clear (t : Tile) : Tile :=
  { t with
    type := TILE_TYPES.EMPTY
    zoneType := none
    level := 0
    density := 0
    zoneClass := none
    powered := false
    roadAccess := false
    buildingId := none
    isMainTile := false
    buildingWidth := 1
    buildingHeight := 1
    population := 0
    jobs := 0 }

/-- JS `setZone(zoneType)`. -/
def setZone (t : Tile) (z : ZoneType) : Tile :=
  let ty := match z with
    | .residential => TILE_TYPES.ZONE_RESIDENTIAL
    | .commercial => TILE_TYPES.ZONE_COMMERCIAL
    | .industrial => TILE_TYPES.ZONE_INDUSTRIAL
  { t with type := ty, zoneType := some z, level := 0, density := 0,
           population := 0, jobs := 0 }

end Tile

/-! ### The city grid and building registry (`City.js`) -/

/-- One building-registry entry, as stored in `this.buildings`. -/
structure Building where
  id : Nat
  btype : String
  x : Nat
  y : Nat
  width : Nat
  height : Nat
deriving DecidableEq, Repr

/-- The city: grid dimensions, the tile grid (JS `this.tiles[y][x]`,
embedded as a total function over coordinates, read only through the
bounds-checked `getTile`), the building registry map (embedded as an
association list) and the id counter. -/
structure City where
  width : Nat
  height : Nat
  tiles : Nat → Nat → Tile
  buildings : List (Nat × Building)
  nextBuildingId : Nat

namespace City

/-- JS `isInBounds(x, y)`; the `Nat` embedding makes the `>= 0` checks
implicit. -/
def isInBounds (c : City) (x y : Nat) : Bool := x < c.width && y < c.height

/-- JS `getTile(x, y)`: `null` out of bounds. -/
def getTile (c : City) (x y : Nat) : Option Tile :=
  if c.isInBounds x y then some (c.tiles y x) else none

/-- Write one cell of the tile grid (the embedding of a JS mutation of
the tile object held at `this.tiles[y][x]`). -/
def setTileAt (c : City) (x y : Nat) (t : Tile) : City :=
  { c with tiles := fun yy xx => if yy == y && xx == x then t else c.tiles yy xx }

/-- JS `this.buildings.get(id)` (with `get(null)` = `undefined`). -/
def buildingsGet (c : City) (id : Option Nat) : Option Building :=
  match id with
  | none => none
  | some i => (c.buildings.find? (fun p => p.1 == i)).map (fun p => p.2)

/-- JS `zoneHasRoadAccess(startX, startY, width, height)`: scan the four
edges of the footprint for a road or rail tile.  Top/left edges use JS
`startY - 1` and `startX - 1`, which are `-1` (out of bounds, `getTile`
returns `null`) when the footprint touches the map border; the embedding
passes the same query through `Int` coordinates to keep that behaviour. -/
def getTileI (c : City) (x y : Int) : Option Tile :=
  if 0 ≤ x ∧ 0 ≤ y then c.getTile x.toNat y.toNat else none

def zoneHasRoadAccess (c : City) (startX startY width height : Nat) : Bool :=
  ((List.range width).any fun dx =>
    ((c.getTileI (startX + dx) ((startY : Int) - 1)).elim false Tile.providesRoadAccess) ||
    ((c.getTileI (startX + dx) (startY + height)).elim false Tile.providesRoadAccess)) ||
  ((List.range height).any fun dy =>
    ((c.getTileI ((startX : Int) - 1) (startY + dy)).elim false Tile.providesRoadAccess) ||
    ((c.getTileI (startX + width) (startY + dy)).elim false Tile.providesRoadAccess))

end City

/-! ### Persistence (`Tile.serialize` / `Tile.deserialize`,
`City.serialize` / `City.deserialize`) -/

/-- The plain object returned by `Tile.serialize()`.  Its keys are
exactly the ones the source lists: `x`, `y`, `type`, `zoneType`,
`level`, `density`, `zoneClass`, `powered`, `roadAccess`, `buildingId`,
`isMainTile`, `buildingWidth`, `buildingHeight`, `landValue`,
`pollution`, `population`, `jobs` — and nothing else; in particular
`crime`, `traffic` and `fireRisk` are not serialized. -/
structure TileData where
  x : Nat
  y : Nat
  type : Nat
  zoneType : Option ZoneType
  level : Nat
  density : Nat
  zoneClass : Option ZClass
  powered : Bool
  roadAccess : Bool
  buildingId : Option Nat
  isMainTile : Bool
  buildingWidth : Nat
  buildingHeight : Nat
  landValue : Nat
  pollution : Nat
  population : Nat
  jobs : Nat
deriving DecidableEq, Repr

/-- JS `Tile.prototype.serialize()`. -/
def Tile.serialize (t : Tile) : TileData where
  x := t.x
  y := t.y
  type := t.type
  zoneType := t.zoneType
  level := t.level
  density := t.density
  zoneClass := t.zoneClass
  powered := t.powered
  roadAccess := t.roadAccess
  buildingId := t.buildingId
  isMainTile := t.isMainTile
  buildingWidth := t.buildingWidth
  buildingHeight := t.buildingHeight
  landValue := t.landValue
  pollution := t.pollution
  population := t.population
  jobs := t.jobs

/-- JS `Tile.deserialize(data)`: `new Tile(data.x, data.y)` then
`Object.assign(tile, data)` — every key present in the snapshot
overwrites the constructor default, while `crime`, `traffic` and
`fireRisk` (absent from the snapshot) keep the constructor value 0. -/
def Tile.deserialize (d : TileData) : Tile :=
  { Tile.new d.x d.y with
    x := d.x
    y := d.y
    type := d.type
    zoneType := d.zoneType
    level := d.level
    density := d.density
    zoneClass := d.zoneClass
    powered := d.powered
    roadAccess := d.roadAccess
    buildingId := d.buildingId
    isMainTile := d.isMainTile
    buildingWidth := d.buildingWidth
    buildingHeight := d.buildingHeight
    landValue := d.landValue
    pollution := d.pollution
    population := d.population
    jobs := d.jobs }

/-- The snapshot returned by `City.serialize()`. -/
structure CityData where
  width : Nat
  height : Nat
  tiles : List (List TileData)
  buildings : List (Nat × Building)
  nextBuildingId : Nat

/-- JS `City.prototype.serialize()`. -/
def City.serialize (c : City) : CityData where
  width := c.width
  height := c.height
  tiles := (List.range c.height).map fun y =>
    (List.range c.width).map fun x => (c.tiles y x).serialize
  buildings := c.buildings
  nextBuildingId := c.nextBuildingId

/-- JS `City.deserialize(data)`: a fresh `new City(width, height)` whose
tile grid is replaced row by row with `Tile.deserialize` of the saved
rows (cells outside the saved rows keep the constructor tile, which a
well-formed snapshot never exposes). -/
def City.deserialize (d : CityData) : City where
  width := d.width
  height := d.height
  tiles := fun y x =>
    match (d.tiles.get? y).bind (fun row => row.get? x) with
    | some td => Tile.deserialize td
    | none => Tile.new x y
  buildings := d.buildings
  nextBuildingId := d.nextBuildingId

/-! ### Row-major iteration (the `for y ... for x ...` loops) -/

/-- Coordinates `(x, y)` in the order the nested
`for (y) { for (x) { ... } }` loops visit them. -/
def cellsRowMajor (width height : Nat) : List (Nat × Nat) :=
  (List.range height).flatMap fun y => (List.range width).map fun x => (x, y)

/-! ### Dynamic method dispatch on `Tile` -/

/-- The boolean query methods the `Tile` class actually defines
(`Tile.js`).  `isNuclearWaste` is not among them: no such method exists
anywhere in the repository. -/
def tileMethodTable : List (String × (Tile → Bool)) :=
  [("isEmpty", Tile.isEmpty), ("isWater", Tile.isWater),
   ("isForest", Tile.isForest), ("isRoad", Tile.isRoad),
   ("isPowerLine", Tile.isPowerLine), ("isRail", Tile.isRail),
   ("isPark", Tile.isPark), ("isBurning", Tile.isBurning),
   ("isFlooded", Tile.isFlooded), ("isRubble", Tile.isRubble),
   ("isZone", Tile.isZone), ("isBuilding", Tile.isBuilding),
   ("isResidential", Tile.isResidential), ("isCommercial", Tile.isCommercial),
   ("isIndustrial", Tile.isIndustrial), ("isPowerPlant", Tile.isPowerPlant),
   ("isService", Tile.isService), ("isSpecialBuilding", Tile.isSpecialBuilding),
   ("conductsPower", Tile.conductsPower),
   ("providesRoadAccess", Tile.providesRoadAccess),
   ("canBuildOn", Tile.canBuildOn), ("canBulldoze", Tile.canBulldoze),
   ("isFlammable", Tile.isFlammable), ("isHighClass", Tile.isHighClass),
   ("isMaxLevel", Tile.isMaxLevel)]

/-- JS dynamic dispatch `tile.<name>()` for a boolean method: calling a
method the class does not define throws a `TypeError`. -/
def callTileBoolMethod (t : Tile) (name : String) : Except String Bool :=
  match tileMethodTable.find? (fun p => p.1 == name) with
  | some p => Except.ok (p.2 t)
  | none => Except.error ("TypeError: tile." ++ name ++ " is not a function")

def isNuclearWasteName : String := "isNuclearWaste"

/-! ### The pollution pass (`Simulation.updatePollution`,
`Simulation.diffusePollution`) -/

/-- The coarse 2×2-block pollution grid, JS `pollutionGrid[gridY][gridX]`
embedded as a function. -/
def PollGrid : Type := Nat → Nat → ℚ

/-- Phase 1, one iteration of the nested loops: look up the tile, call
`tile.isNuclearWaste()` (dynamic dispatch), then accumulate the tile's
pollution source value into its 2×2 cell, clamped at `MAX_VALUE`. -/
def pollutionSourceStep (c : City) (g : PollGrid) (cell : Nat × Nat) :
    Except String PollGrid := do
  let x := cell.1
  let y := cell.2
  let tile := c.tiles y x
  let gridX := x / 2
  let gridY := y / 2
  let isNW ← callTileBoolMethod tile isNuclearWasteName
  if isNW then
    return fun gy gx =>
      if gy == gridY && gx == gridX then (POLLUTION_VALUES_NUCLEAR_WASTE : ℚ)
      else g gy gx
  else
    let pollutionValue : Nat :=
      if tile.isBurning then POLLUTION_VALUES_FIRE
      else if tile.type == TILE_TYPES.AIRPORT then POLLUTION_VALUES_AIRPORT
      else if tile.type == TILE_TYPES.SEAPORT then POLLUTION_VALUES_SEAPORT
      else if tile.type == TILE_TYPES.COAL_POWER then POLLUTION_VALUES_COAL_POWER
      else if tile.isIndustrial && tile.isBuilding then POLLUTION_VALUES_INDUSTRIAL
      else 0
    if 0 < pollutionValue then
      return fun gy gx =>
        if gy == gridY && gx == gridX then
          min POLLUTION_DIFFUSION_MAX_VALUE (g gy gx + pollutionValue)
        else g gy gx
    else
      return g

/-- Phase 1 of `updatePollution`: fold `pollutionSourceStep` over the
whole tile grid in loop order. -/
def pollutionPhase1 (c : City) : Except String PollGrid :=
  (cellsRowMajor c.width c.height).foldlM (pollutionSourceStep c)
    (fun _ _ => (0 : ℚ))

/-- One cell's contribution scatter inside `diffusePollution`: add 25%
of the cell's value to itself and each in-bounds orthogonal neighbour of
the *new* grid, each addition clamped at `MAX_VALUE`, in the order the
source performs them (self, up, down, left, right). -/
def addClamped (g : PollGrid) (tx ty : Nat) (k : ℚ) : PollGrid :=
  fun gy gx =>
    if gy == ty && gx == tx then
      min POLLUTION_DIFFUSION_MAX_VALUE (g ty tx + k)
    else g gy gx

def diffuseScatter (width height : Nat) (grid : PollGrid) (newGrid : PollGrid)
    (cell : Nat × Nat) : PollGrid :=
  let x := cell.1
  let y := cell.2
  let value := grid y x
  if value = 0 then newGrid
  else
    let contribution := value * POLLUTION_DIFFUSION_FACTOR
    let g1 := addClamped newGrid x y contribution
    let g2 := if 0 < y then addClamped g1 x (y - 1) contribution else g1
    let g3 := if y < height - 1 then addClamped g2 x (y + 1) contribution else g2
    let g4 := if 0 < x then addClamped g3 (x - 1) y contribution else g3
    if x < width - 1 then addClamped g4 (x + 1) y contribution else g4

/-- JS `diffusePollution(grid, width, height)`: build a fresh zero grid
and scatter every cell's contribution into it, in loop order. -/
def diffusePollution (width height : Nat) (grid : PollGrid) : PollGrid :=
  (cellsRowMajor width height).foldl (diffuseScatter width height grid)
    (fun _ _ => (0 : ℚ))

/-- Phase 3 of `updatePollution`: each tile reads back
`floor(pollutionGrid[floor(y/2)][floor(x/2)])`. -/
def pollutionPhase3Value (g : PollGrid) (x y : Nat) : Int :=
  ⌊g (y / 2) (x / 2)⌋

/-- The whole `updatePollution` pass (phases 1–3), in the error monad
that makes the failing dynamic dispatch of phase 1 visible.  The grid
dimensions of the coarse grid are `ceil(width/2)` and `ceil(height/2)`. -/
def updatePollutionE (c : City) : Except String City := do
  let gridWidth := (c.width + 1) / 2
  let gridHeight := (c.height + 1) / 2
  let g0 ← pollutionPhase1 c
  let g1 := diffusePollution gridWidth gridHeight g0
  let g2 := diffusePollution gridWidth gridHeight g1
  let newTiles : Nat → Nat → Tile := fun y x =>
    if x < c.width ∧ y < c.height then
      { c.tiles y x with pollution := (pollutionPhase3Value g2 x y).toNat }
    else c.tiles y x
  return { c with tiles := newTiles }


/-! ### Claim C1: the pollution and disaster passes throw -/

/-- The message of the JS `TypeError` raised when `updatePollution`
dispatches `tile.isNuclearWaste()`. -/
def nuclearWasteTypeError : String :=
  "TypeError: tile." ++ isNuclearWasteName ++ " is not a function"

lemma callTileBoolMethod_isNuclearWaste (t : Tile) :
    callTileBoolMethod t isNuclearWasteName = Except.error nuclearWasteTypeError := by
  rfl

lemma pollutionSourceStep_error (c : City) (g : PollGrid) (cell : Nat × Nat) :
    pollutionSourceStep c g cell = Except.error nuclearWasteTypeError := by
  rfl

lemma foldlM_except_error {α β : Type} (f : β → α → Except String β) (msg : String)
    (hf : ∀ b a, f b a = Except.error msg) (init : β) (l : List α) (hl : l ≠ []) :
    l.foldlM f init = Except.error msg := by
  cases l with
  | nil => exact absurd rfl hl
  | cons a l => rw [List.foldlM_cons, hf]; rfl

lemma cellsRowMajor_ne_nil {w h : Nat} (hw : 0 < w) (hh : 0 < h) :
    cellsRowMajor w h ≠ [] := by
  have hmem : (0, 0) ∈ cellsRowMajor w h := by
    unfold cellsRowMajor
    rw [List.mem_flatMap]
    exact ⟨0, List.mem_range.mpr hh, List.mem_map.mpr ⟨0, List.mem_range.mpr hw, rfl⟩⟩
  intro hnil
  rw [hnil] at hmem
  exact absurd hmem (List.not_mem_nil _)

/-- C1: the claim says every per-tick pass — `updatePollution` and
`updateDisasters` included — evaluates without error on every grid.  In
fact `updatePollution` calls `tile.isNuclearWaste()` on every tile and
the `Tile` class defines no such method, so on every grid with at least
one tile the pass throws a `TypeError` at the very first tile it visits. -/
theorem C1_updatePollution_throws (c : City) (hw : 0 < c.width) (hh : 0 < c.height) :
    updatePollutionE c = Except.error nuclearWasteTypeError := by
  have hfold : pollutionPhase1 c = Except.error nuclearWasteTypeError :=
    foldlM_except_error _ _ (pollutionSourceStep_error c) _ _
      (cellsRowMajor_ne_nil hw hh)
  unfold updatePollutionE
  rw [hfold]
  rfl

/-- Witness city for C1: a fresh one-tile map. -/
def cityC1 : City where
  width := 1
  height := 1
  tiles := fun y x => Tile.new x y
  buildings := []
  nextBuildingId := 1

theorem C1_witness :
    updatePollutionE cityC1 = Except.error nuclearWasteTypeError :=
  C1_updatePollution_throws cityC1 (by decide) (by decide)

/-! ### Claim C3: the serialization round trip -/

/-- C3 (amended): `City.deserialize(City.serialize(city))` reproduces
every field `Tile.serialize` emits — `type`, `zoneType`, `level`,
`density`, `zoneClass`, `powered`, `roadAccess`, `buildingId`,
`isMainTile`, `buildingWidth`, `buildingHeight`, `landValue`,
`pollution`, `population`, `jobs` — for every cell of the grid, while
`crime`, `traffic` and `fireRisk` are not serialized and come back as
the constructor value 0. -/
theorem C3_roundtrip (c : City) (x y : Nat) (hx : x < c.width) (hy : y < c.height) :
    (City.deserialize c.serialize).tiles y x =
      { c.tiles y x with crime := 0, traffic := 0, fireRisk := 0 } := by
  have h1 : ((List.range c.height).map fun yy =>
      (List.range c.width).map fun xx => (c.tiles yy xx).serialize).get? y =
      some ((List.range c.width).map fun xx => (c.tiles y xx).serialize) := by
    rw [List.get?_map, List.get?_range hy]
    rfl
  have h2 : ((List.range c.width).map fun xx => (c.tiles y xx).serialize).get? x =
      some ((c.tiles y x).serialize) := by
    rw [List.get?_map, List.get?_range hx]
    rfl
  show (match (((City.serialize c).tiles.get? y).bind fun row => row.get? x) with
        | some td => Tile.deserialize td
        | none => Tile.new x y) = _
  rw [show (City.serialize c).tiles = (List.range c.height).map fun yy =>
      (List.range c.width).map fun xx => (c.tiles yy xx).serialize from rfl]
  rw [h1]
  show (match ((List.range c.width).map fun xx => (c.tiles y xx).serialize).get? x with
        | some td => Tile.deserialize td
        | none => Tile.new x y) = _
  rw [h2]
  rfl

/-- Counterexample city for C3: a 1×1 grid whose tile holds `crime = 5`,
`traffic = 7` and `fireRisk = 3`. -/
def cityC3 : City where
  width := 1
  height := 1
  tiles := fun y x => { Tile.new x y with crime := 5, traffic := 7, fireRisk := 3 }
  buildings := []
  nextBuildingId := 1

/-- C3 counterexample: the round trip does not reproduce `crime`,
`traffic` or `fireRisk` — they come back 0. -/
theorem C3_counterexample :
    (cityC3.tiles 0 0).crime = 5 ∧ (cityC3.tiles 0 0).traffic = 7 ∧
    (cityC3.tiles 0 0).fireRisk = 3 ∧
    ((City.deserialize cityC3.serialize).tiles 0 0).crime = 0 ∧
    ((City.deserialize cityC3.serialize).tiles 0 0).traffic = 0 ∧
    ((City.deserialize cityC3.serialize).tiles 0 0).fireRisk = 0 := by
  refine ⟨rfl, rfl, rfl, ?_, ?_, ?_⟩ <;> rfl

theorem C3_witness :
    (City.deserialize cityC3.serialize).tiles 0 0 =
      { cityC3.tiles 0 0 with crime := 0, traffic := 0, fireRisk := 0 } :=
  C3_roundtrip cityC3 0 0 (by decide) (by decide)


/-! ### Claim C8: placement commands (`City.placeZone`, `City.placeBuilding`) -/

/-- Name of a zone type, the string `placeZone` stores in the registry. -/
def zoneTypeName : ZoneType → String
  | .residential => "residential"
  | .commercial => "commercial"
  | .industrial => "industrial"

/-- JS truthiness of a nullable numeric id (`if (tile.buildingId)`). -/
def jsTruthy : Option Nat → Bool
  | none => false
  | some n => !(n == 0)

namespace City

/-- The footprint check loop shared by `placeZone` and `placeBuilding`:
every tile of the footprint is in bounds and `canBuildOn`. -/
def footprintBuildable (c : City) (startX startY w h : Nat) : Bool :=
  (cellsRowMajor w h).all fun cell =>
    match c.getTile (startX + cell.1) (startY + cell.2) with
    | none => false
    | some t => t.canBuildOn

/-- JS `placeZone(startX, startY, zoneType)`: check the whole 3×3
footprint, then claim a building id, stamp the nine tiles and register
the building; returns the success flag next to the resulting city. -/
def placeZone (c : City) (startX startY : Nat) (zoneType : ZoneType) : Bool × City :=
  let size := ZONE_SIZE
  if !c.footprintBuildable startX startY size size then (false, c)
  else
    let buildingId := c.nextBuildingId
    let c1 : City := { c with nextBuildingId := c.nextBuildingId + 1 }
    let c2 := (cellsRowMajor size size).foldl (fun acc cell =>
      let x := startX + cell.1
      let y := startY + cell.2
      let t := (acc.tiles y x).setZone zoneType
      let t := { t with buildingId := some buildingId }
      let t := if cell.1 == 0 && cell.2 == 0 then
          { t with isMainTile := true, buildingWidth := size, buildingHeight := size }
        else t
      acc.setTileAt x y t) c1
    (true, { c2 with buildings :=
      c2.buildings ++ [(buildingId,
        { id := buildingId, btype := zoneTypeName zoneType,
          x := startX, y := startY, width := size, height := size })] })

/-- The `switch (buildingType)` mapping to a tile type in
`placeBuilding`; `default: return false` is the `none` case. -/
def buildingTileType : String → Option Nat
  | "coal-power" => some TILE_TYPES.COAL_POWER
  | "nuclear-power" => some TILE_TYPES.NUCLEAR_POWER
  | "police" => some TILE_TYPES.POLICE
  | "fire" => some TILE_TYPES.FIRE
  | "stadium" => some TILE_TYPES.STADIUM
  | "seaport" => some TILE_TYPES.SEAPORT
  | "airport" => some TILE_TYPES.AIRPORT
  | _ => none

/-- JS `placeBuilding(startX, startY, buildingType)`: size lookup,
footprint check, tile-type switch, then stamp the footprint, power it up
for plants, and register the building. -/
def placeBuilding (c : City) (startX startY : Nat) (buildingType : String) :
    Bool × City :=
  match BUILDING_SIZES buildingType with
  | none => (false, c)
  | some wh =>
    let width := wh.1
    let height := wh.2
    if !c.footprintBuildable startX startY width height then (false, c)
    else
      match buildingTileType buildingType with
      | none => (false, c)
      | some tileType =>
        let buildingId := c.nextBuildingId
        let c1 : City := { c with nextBuildingId := c.nextBuildingId + 1 }
        let c2 := (cellsRowMajor width height).foldl (fun acc cell =>
          let x := startX + cell.1
          let y := startY + cell.2
          let t := { acc.tiles y x with type := tileType, buildingId := some buildingId }
          let t := if cell.1 == 0 && cell.2 == 0 then
              { t with isMainTile := true, buildingWidth := width, buildingHeight := height }
            else t
          acc.setTileAt x y t) c1
        let isPlant := buildingType == "coal-power" || buildingType == "nuclear-power"
        let c3 := if isPlant then
            (cellsRowMajor width height).foldl (fun acc cell =>
              let x := startX + cell.1
              let y := startY + cell.2
              acc.setTileAt x y { acc.tiles y x with powered := true }) c2
          else c2
        (true, { c3 with buildings :=
          c3.buildings ++ [(buildingId,
            { id := buildingId, btype := buildingType,
              x := startX, y := startY, width := width, height := height })] })

end City

/-- C8: placement commands are atomic policy rejections.  If any tile of
the requested footprint is out of bounds or not buildable, the call
returns `false`; and every call that returns `false` hands back the city
unchanged — same tile grid, same building registry, same
`nextBuildingId` — so state changes only on calls that return `true`. -/
theorem C8_placement_atomic (c : City) (sx sy : Nat) (z : ZoneType) (bt : String) :
    ((c.placeZone sx sy z).1 = false → (c.placeZone sx sy z).2 = c) ∧
    ((c.placeBuilding sx sy bt).1 = false → (c.placeBuilding sx sy bt).2 = c) ∧
    (c.footprintBuildable sx sy ZONE_SIZE ZONE_SIZE = false →
      (c.placeZone sx sy z).1 = false) ∧
    (∀ w h, BUILDING_SIZES bt = some (w, h) →
      c.footprintBuildable sx sy w h = false →
      (c.placeBuilding sx sy bt).1 = false) := by
  refine ⟨?_, ?_, ?_, ?_⟩
  · intro h
    cases hf : c.footprintBuildable sx sy ZONE_SIZE ZONE_SIZE with
    | false => simp [City.placeZone, hf]
    | true => simp [City.placeZone, hf] at h
  · intro h
    cases hbs : BUILDING_SIZES bt with
    | none => simp [City.placeBuilding, hbs]
    | some wh =>
      cases hf : c.footprintBuildable sx sy wh.1 wh.2 with
      | false => simp [City.placeBuilding, hbs, hf]
      | true =>
        cases hbt : City.buildingTileType bt with
        | none => simp [City.placeBuilding, hbs, hf, hbt]
        | some tt => simp [City.placeBuilding, hbs, hf, hbt] at h
  · intro hf
    simp [City.placeZone, hf]
  · intro w hgt hbs hf
    simp [City.placeBuilding, hbs, hf]

/-- Witness city for C8: a fresh 1×1 map, on which both a 3×3 zone and a
6×6 airport footprint run out of bounds. -/
def cityC8 : City where
  width := 1
  height := 1
  tiles := fun y x => Tile.new x y
  buildings := []
  nextBuildingId := 1

def airportName : String := "airport"

theorem C8_witness :
    (cityC8.placeZone 0 0 ZoneType.residential).2 = cityC8 ∧
    (cityC8.placeBuilding 0 0 airportName).2 = cityC8 :=
  ⟨(C8_placement_atomic cityC8 0 0 ZoneType.residential airportName).1 (by rfl),
   (C8_placement_atomic cityC8 0 0 ZoneType.residential airportName).2.1 (by rfl)⟩


/-! ### Claim C9: monster and tornado termination
(`triggerMonsterDisaster` / `updateMonster`,
`triggerTornadoDisaster` / `updateTornado`) -/

/-- The monster entity (`activeDisasters.monster`). -/
structure Monster where
  x : Int
  y : Int
  dx : Int
  dy : Int
  hp : Int
deriving DecidableEq, Repr

/-- The tornado entity (`activeDisasters.tornado`). -/
structure Tornado where
  x : Int
  y : Int
  dx : Int
  dy : Int
  lifetime : Int
deriving DecidableEq, Repr

/-- JS clamp `Math.max(0, Math.min(bound - 1, v))`. -/
def clampCoord (bound : Nat) (v : Int) : Int := max 0 (min ((bound : Int) - 1) v)

/-- JS `triggerMonsterDisaster()`: the monster spawns on a map edge with
`hp: 50`; `edge` and `r` stand for the two RNG draws selecting the edge
and the position along it. -/
def triggerMonster (width height : Nat) (edge r : Nat) : Monster :=
  if edge == 0 then { x := r, y := 0, dx := 0, dy := 1, hp := 50 }
  else if edge == 1 then { x := (width : Int) - 1, y := r, dx := -1, dy := 0, hp := 50 }
  else if edge == 2 then { x := r, y := (height : Int) - 1, dx := 0, dy := -1, hp := 50 }
  else { x := 0, y := r, dx := 1, dy := 0, hp := 50 }

/-- One tick's random draws inside `updateMonster`: whether the
`Math.random() < 0.2` direction roll fires, and which of the four
directions is then picked. -/
structure MonsterRand where
  changeDir : Bool
  dirIndex : Fin 4

def monsterDirs : Fin 4 → Int × Int
  | 0 => (-1, 0)
  | 1 => (1, 0)
  | 2 => (0, -1)
  | 3 => (0, 1)

/-- JS `updateMonster()` restricted to the monster entity: the map
damage the monster deals reads but never writes the monster record, so
the entity evolution is `hp--`, an optional random direction change, a
move, the clamp into bounds, and removal (`monster = null`) at
`hp <= 0`. -/
def updateMonsterEntity (width height : Nat) (m : Option Monster) (r : MonsterRand) :
    Option Monster :=
  match m with
  | none => none
  | some monster =>
    let monster := { monster with hp := monster.hp - 1 }
    let monster := if r.changeDir then
        { monster with dx := (monsterDirs r.dirIndex).1,
                       dy := (monsterDirs r.dirIndex).2 }
      else monster
    let monster := { monster with x := monster.x + monster.dx,
                                  y := monster.y + monster.dy }
    let monster := { monster with x := clampCoord width monster.x,
                                  y := clampCoord height monster.y }
    if monster.hp ≤ 0 then none else some monster

/-- Run `updateMonster` for `n` ticks, feeding the tick-indexed RNG
oracle `rs`. -/
def iterateMonster (width height : Nat) (rs : Nat → MonsterRand) :
    Nat → Option Monster → Option Monster
  | 0, m => m
  | n + 1, m => iterateMonster width height rs n
      (updateMonsterEntity width height m (rs n))

/-- JS `triggerTornadoDisaster()`: random position, random diagonal
direction, `lifetime: 30 + Math.floor(Math.random() * 30)`; `life`
stands for the `floor(random * 30)` draw. -/
def triggerTornado (px py : Nat) (dxNeg dyNeg : Bool) (life : Nat) : Tornado where
  x := px
  y := py
  dx := if dxNeg then -1 else 1
  dy := if dyNeg then -1 else 1
  lifetime := 30 + life

/-- One tick's random draws inside `updateTornado` that affect the
entity itself: the two 30% direction re-rolls and their outcomes. -/
structure TornadoRand where
  changeDx : Bool
  newDxNeg : Bool
  changeDy : Bool
  newDyNeg : Bool

/-- JS `updateTornado()` restricted to the tornado entity: destruction
of surrounding tiles never writes the tornado record, so the entity
evolution is the optional direction re-rolls, a move, the clamp into
bounds, `lifetime--`, and removal at `lifetime <= 0`. -/
def updateTornadoEntity (width height : Nat) (t : Option Tornado) (r : TornadoRand) :
    Option Tornado :=
  match t with
  | none => none
  | some tornado =>
    let tornado := if r.changeDx then
        { tornado with dx := if r.newDxNeg then -1 else 1 } else tornado
    let tornado := if r.changeDy then
        { tornado with dy := if r.newDyNeg then -1 else 1 } else tornado
    let tornado := { tornado with x := tornado.x + tornado.dx,
                                  y := tornado.y + tornado.dy }
    let tornado := { tornado with x := clampCoord width tornado.x,
                                  y := clampCoord height tornado.y }
    let tornado := { tornado with lifetime := tornado.lifetime - 1 }
    if tornado.lifetime ≤ 0 then none else some tornado

/-- Run `updateTornado` for `n` ticks. -/
def iterateTornado (width height : Nat) (rs : Nat → TornadoRand) :
    Nat → Option Tornado → Option Tornado
  | 0, t => t
  | n + 1, t => iterateTornado width height rs n
      (updateTornadoEntity width height t (rs n))

lemma iterateMonster_none (width height : Nat) (rs : Nat → MonsterRand) (n : Nat) :
    iterateMonster width height rs n none = none := by
  induction n with
  | zero => rfl
  | succ k ih =>
    show iterateMonster width height rs k (updateMonsterEntity width height none (rs k)) = none
    exact ih

lemma iterateMonster_terminates (width height : Nat) (rs : Nat → MonsterRand) :
    ∀ (n : Nat) (m : Monster), m.hp ≤ n → 0 < n →
      iterateMonster width height rs n (some m) = none := by
  intro n
  induction n with
  | zero => intro m _ h0; exact absurd h0 (by omega)
  | succ k ih =>
    intro m hhp _
    show iterateMonster width height rs k
      (updateMonsterEntity width height (some m) (rs k)) = none
    by_cases hdead : m.hp - 1 ≤ 0
    · have hstep : updateMonsterEntity width height (some m) (rs k) = none := by
        unfold updateMonsterEntity
        cases hc : (rs k).changeDir <;> simp [hc, hdead]
      rw [hstep]
      exact iterateMonster_none width height rs k
    · have hk : 0 < k := by
        have : (1 : Int) ≤ m.hp - 1 := by omega
        have : (2 : Int) ≤ m.hp := by omega
        omega
      have hstep : ∃ m2 : Monster, updateMonsterEntity width height (some m) (rs k) = some m2 ∧
          m2.hp = m.hp - 1 := by
        unfold updateMonsterEntity
        cases hc : (rs k).changeDir <;> simp [hc, hdead]
      obtain ⟨m2, hstep, hhp2⟩ := hstep
      rw [hstep]
      exact ih m2 (by omega) hk

lemma iterateTornado_none (width height : Nat) (rs : Nat → TornadoRand) (n : Nat) :
    iterateTornado width height rs n none = none := by
  induction n with
  | zero => rfl
  | succ k ih =>
    show iterateTornado width height rs k (updateTornadoEntity width height none (rs k)) = none
    exact ih

lemma iterateTornado_terminates (width height : Nat) (rs : Nat → TornadoRand) :
    ∀ (n : Nat) (t : Tornado), t.lifetime ≤ n → 0 < n →
      iterateTornado width height rs n (some t) = none := by
  intro n
  induction n with
  | zero => intro t _ h0; exact absurd h0 (by omega)
  | succ k ih =>
    intro t hlt _
    show iterateTornado width height rs k
      (updateTornadoEntity width height (some t) (rs k)) = none
    by_cases hdead : t.lifetime - 1 ≤ 0
    · have hstep : updateTornadoEntity width height (some t) (rs k) = none := by
        unfold updateTornadoEntity
        cases hx : (rs k).changeDx <;> cases hy : (rs k).changeDy <;>
          simp [hx, hy, hdead]
      rw [hstep]
      exact iterateTornado_none width height rs k
    · have hk : 0 < k := by omega
      have hstep : ∃ t2 : Tornado, updateTornadoEntity width height (some t) (rs k) = some t2 ∧
          t2.lifetime = t.lifetime - 1 := by
        unfold updateTornadoEntity
        cases hx : (rs k).changeDx <;> cases hy : (rs k).changeDy <;>
          simp [hx, hy, hdead]
      obtain ⟨t2, hstep, hlt2⟩ := hstep
      rw [hstep]
      exact ih t2 (by omega) hk

lemma triggerMonster_hp (width height edge r : Nat) :
    (triggerMonster width height edge r).hp = 50 := by
  unfold triggerMonster
  split_ifs <;> rfl

/-- C9: a triggered monster (spawned with `hp = 50`, decremented every
`updateMonster` call) is removed — `activeDisasters.monster` is back to
`null` — within 50 ticks, for every random outcome; a triggered tornado
has its lifetime drawn from 30..59 and is removed within that many
ticks, again for every random outcome. -/
theorem C9_disaster_termination (width height edge r px py : Nat)
    (dxNeg dyNeg : Bool) (life : Nat) (hlife : life < 30)
    (mrs : Nat → MonsterRand) (trs : Nat → TornadoRand) :
    iterateMonster width height mrs 50
        (some (triggerMonster width height edge r)) = none ∧
    30 ≤ (triggerTornado px py dxNeg dyNeg life).lifetime ∧
    (triggerTornado px py dxNeg dyNeg life).lifetime ≤ 59 ∧
    iterateTornado width height trs
        (triggerTornado px py dxNeg dyNeg life).lifetime.toNat
        (some (triggerTornado px py dxNeg dyNeg life)) = none := by
  refine ⟨?_, ?_, ?_, ?_⟩
  · exact iterateMonster_terminates width height mrs 50
      (triggerMonster width height edge r)
      (by rw [triggerMonster_hp]; omega) (by omega)
  · show (30 : Int) ≤ 30 + (life : Int)
    omega
  · show (30 : Int) + (life : Int) ≤ 59
    omega
  · exact iterateTornado_terminates width height trs
      (30 + life) (triggerTornado px py dxNeg dyNeg life)
      (by show (30 : Int) + (life : Int) ≤ ((30 + life : Int)).toNat; omega)
      (by omega)

/-- Witness for C9 at a concrete map size, spawn draws and RNG streams. -/
theorem C9_witness :
    iterateMonster 8 8 (fun _ => ⟨false, 0⟩) 50 (some (triggerMonster 8 8 0 3)) = none ∧
    30 ≤ (triggerTornado 2 2 false true 12).lifetime ∧
    (triggerTornado 2 2 false true 12).lifetime ≤ 59 ∧
    iterateTornado 8 8 (fun _ => ⟨false, false, false, false⟩)
        (triggerTornado 2 2 false true 12).lifetime.toNat
        (some (triggerTornado 2 2 false true 12)) = none :=
  C9_disaster_termination 8 8 0 3 2 2 false true 12 (by decide)
    (fun _ => ⟨false, 0⟩) (fun _ => ⟨false, false, false, false⟩)


/-! ### Loop and grid infrastructure shared by the pass embeddings -/

lemma foldl_preserve_mem {α β : Type} (step : β → α → β) (P : β → Prop)
    (l : List α) (init : β) (h0 : P init)
    (hstep : ∀ b a, a ∈ l → P b → P (step b a)) : P (l.foldl step init) := by
  induction l generalizing init with
  | nil => exact h0
  | cons hd tl ih =>
    exact ih (step init hd) (hstep init hd (by simp) h0)
      (fun b a ha hb => hstep b a (by simp [ha]) hb)

lemma setTileAt_tiles (c : City) (x y : Nat) (t : Tile) (a b : Nat) :
    (c.setTileAt x y t).tiles b a = if b == y && a == x then t else c.tiles b a := rfl

lemma setTileAt_width (c : City) (x y : Nat) (t : Tile) :
    (c.setTileAt x y t).width = c.width := rfl

lemma setTileAt_height (c : City) (x y : Nat) (t : Tile) :
    (c.setTileAt x y t).height = c.height := rfl

lemma setTileAt_buildings (c : City) (x y : Nat) (t : Tile) :
    (c.setTileAt x y t).buildings = c.buildings := rfl

lemma cellsRowMajor_succ (w h : Nat) :
    cellsRowMajor (w + 1) (h + 1) =
      (0, 0) :: (((List.range w).map fun x => (x + 1, 0)) ++
        ((List.range h).flatMap fun y => (List.range (w + 1)).map fun x => (x, y + 1))) := by
  unfold cellsRowMajor
  rw [List.range_succ_eq_map, List.flatMap_cons]
  rw [List.range_succ_eq_map]
  simp [List.map_map, List.flatMap_map, Function.comp]

lemma cellsRowMajor_nodup (w h : Nat) : (cellsRowMajor w h).Nodup := by
  unfold cellsRowMajor
  rw [List.nodup_flatMap]
  constructor
  · intro y _
    exact (List.nodup_range w).map (fun a b hab => by
      simpa using congrArg Prod.fst hab)
  · have hr : (List.range h).Pairwise (· ≠ ·) := (List.nodup_range h)
    refine hr.imp ?_
    intro y1 y2 hne
    simp only [Function.onFun]
    rw [List.disjoint_left]
    intro p hp1 hp2
    simp only [List.mem_map, List.mem_range] at hp1 hp2
    obtain ⟨x1, _, rfl⟩ := hp1
    obtain ⟨x2, _, h2⟩ := hp2
    exact hne (by simpa using (congrArg Prod.snd h2).symm)

lemma mem_cellsRowMajor {w h : Nat} {p : Nat × Nat} :
    p ∈ cellsRowMajor w h ↔ p.1 < w ∧ p.2 < h := by
  obtain ⟨a, b⟩ := p
  unfold cellsRowMajor
  simp only [List.mem_flatMap, List.mem_map, List.mem_range]
  constructor
  · rintro ⟨y, hy, x, hx, hxy⟩
    obtain ⟨rfl, rfl⟩ := Prod.mk.injEq .. ▸ hxy
    exact ⟨by simpa using hx, by simpa using hy⟩
  · rintro ⟨ha, hb⟩
    exact ⟨b, hb, a, ha, rfl⟩

/-- The footprint loops of `developZone`, `increaseZoneDensity` and
`decreaseZoneDensity`: visit every cell of the building's rectangle and
apply a per-tile transformation. -/
def footprintApply (c : City) (x y w h : Nat) (F : Tile → Tile) : City :=
  (cellsRowMajor w h).foldl (fun acc cell =>
    match acc.getTile (x + cell.1) (y + cell.2) with
    | none => acc
    | some t => acc.setTileAt (x + cell.1) (y + cell.2) (F t)) c

lemma footprintApply_width (c : City) (x y w h : Nat) (F : Tile → Tile) :
    (footprintApply c x y w h F).width = c.width := by
  unfold footprintApply
  refine foldl_preserve_mem _ (fun acc : City => acc.width = c.width) _ _ rfl ?_
  intro acc cell _ hacc
  cases hgt : acc.getTile (x + cell.1) (y + cell.2) with
  | none => simpa [hgt] using hacc
  | some t => simpa [hgt, setTileAt_width] using hacc

lemma footprintApply_height (c : City) (x y w h : Nat) (F : Tile → Tile) :
    (footprintApply c x y w h F).height = c.height := by
  unfold footprintApply
  refine foldl_preserve_mem _ (fun acc : City => acc.height = c.height) _ _ rfl ?_
  intro acc cell _ hacc
  cases hgt : acc.getTile (x + cell.1) (y + cell.2) with
  | none => simpa [hgt] using hacc
  | some t => simpa [hgt, setTileAt_height] using hacc

lemma footprintApply_buildings (c : City) (x y w h : Nat) (F : Tile → Tile) :
    (footprintApply c x y w h F).buildings = c.buildings := by
  unfold footprintApply
  refine foldl_preserve_mem _ (fun acc : City => acc.buildings = c.buildings) _ _ rfl ?_
  intro acc cell _ hacc
  cases hgt : acc.getTile (x + cell.1) (y + cell.2) with
  | none => simpa [hgt] using hacc
  | some t => simpa [hgt, setTileAt_buildings] using hacc

lemma footprintApply_untouched (c : City) (x y w h : Nat) (F : Tile → Tile)
    (a b : Nat) (hab : ∀ cell ∈ cellsRowMajor w h, ¬(x + cell.1 = a ∧ y + cell.2 = b)) :
    (footprintApply c x y w h F).tiles b a = c.tiles b a := by
  unfold footprintApply
  refine foldl_preserve_mem _ (fun acc : City => acc.tiles b a = c.tiles b a) _ _ rfl ?_
  intro acc cell hcell hacc
  cases hgt : acc.getTile (x + cell.1) (y + cell.2) with
  | none => simpa [hgt] using hacc
  | some t =>
    have hne : (b == y + cell.2 && a == x + cell.1) = false := by
      have := hab cell hcell
      simp only [Bool.and_eq_false_iff, beq_eq_false_iff_ne, ne_eq]
      omega
    simp only [hgt]
    rw [setTileAt_tiles, hne]
    · exact hacc

/-- The anchor cell `(0, 0)` of a non-empty footprint is written exactly
once, first, so the tile at `(x, y)` ends as `F` of its old value. -/
lemma footprintApply_main (c : City) (x y w h : Nat) (F : Tile → Tile)
    (hw : 0 < w) (hh : 0 < h) (hx : x < c.width) (hy : y < c.height) :
    (footprintApply c x y w h F).tiles y x = F (c.tiles y x) := by
  obtain ⟨w, rfl⟩ : ∃ w2, w = w2 + 1 := ⟨w - 1, by omega⟩
  obtain ⟨h, rfl⟩ : ∃ h2, h = h2 + 1 := ⟨h - 1, by omega⟩
  unfold footprintApply
  rw [cellsRowMajor_succ, List.foldl_cons]
  have hgt : c.getTile (x + 0) (y + 0) = some (c.tiles y x) := by
    simp [City.getTile, City.isInBounds, hx, hy]
  simp only [hgt]
  set c1 := c.setTileAt (x + 0) (y + 0) (F (c.tiles y x)) with hc1
  have hval : c1.tiles y x = F (c.tiles y x) := by
    rw [hc1, setTileAt_tiles]
    simp
  refine foldl_preserve_mem _ (fun acc : City => acc.tiles y x = F (c.tiles y x)) _ _ hval ?_
  intro acc cell hcell hacc
  have hcell2 : cell ∈ cellsRowMajor (w + 1) (h + 1) ∧ cell ≠ (0, 0) := by
    have hnd := cellsRowMajor_nodup (w + 1) (h + 1)
    rw [cellsRowMajor_succ] at hnd
    constructor
    · rw [cellsRowMajor_succ]
      exact List.mem_cons_of_mem _ hcell
    · intro hq
      subst hq
      exact (List.nodup_cons.mp hnd).1 hcell
  cases hgt2 : acc.getTile (x + cell.1) (y + cell.2) with
  | none => simpa [hgt2] using hacc
  | some t =>
    have hne : (y == y + cell.2 && x == x + cell.1) = false := by
      have : ¬(cell.1 = 0 ∧ cell.2 = 0) := by
        intro hz
        exact hcell2.2 (Prod.ext hz.1 hz.2)
      simp only [Bool.and_eq_false_iff, beq_eq_false_iff_ne, ne_eq]
      omega
    simp only [hgt2]
    rw [setTileAt_tiles, hne]
    · exact hacc


/-! ### Zone development (`Simulation.updateZoneDevelopment` and helpers) -/

/-- The three demand scalars the simulation holds
(`residentialDemand`, `commercialDemand`, `industrialDemand`). -/
structure Demands where
  residential : ℚ
  commercial : ℚ
  industrial : ℚ

namespace Simulation

/-- JS `getDemandForZone(zoneType)` (unknown zone type → 0). -/
def getDemandForZone (d : Demands) : Option ZoneType → ℚ
  | some .residential => d.residential
  | some .commercial => d.commercial
  | some .industrial => d.industrial
  | none => 0

/-- JS `calculateGrowthChance(tile, demand)`: 5% of demand as the base,
a land-value bonus for residential, a ×1.2 boost for industrial, capped
at 20%. -/
def calculateGrowthChance (tile : Tile) (demand : ℚ) : ℚ :=
  if demand ≤ 0 then 0
  else
    let baseChance := demand * (5 / 100)
    let baseChance :=
      if tile.isResidential then
        baseChance + (tile.getEffectiveLandValue : ℚ) / 255 * (5 / 100)
      else if tile.isCommercial then baseChance
      else if tile.isIndustrial then baseChance * (12 / 10)
      else baseChance
    min (2 / 10) baseChance

/-- JS `canReachTopLevel(tile, x, y)`: industrial is exempt; otherwise
the tile must sit at `maxLevel - 1` with High class and have a same-type
High-class neighbour at the same level exactly 3 tiles away in one of
the four cardinal directions. -/
def canReachTopLevel (c : City) (tile : Tile) (x y : Nat) : Bool :=
  if tile.isIndustrial then true
  else
    let requiredLevel := tile.getMaxLevel - 1
    if !(tile.level == requiredLevel) then false
    else if !tile.isHighClass then false
    else
      [((-3 : Int), (0 : Int)), (3, 0), (0, -3), (0, 3)].any fun off =>
        match c.getTileI ((x : Int) + off.1) ((y : Int) + off.2) with
        | none => false
        | some adj =>
          adj.isMainTile && adj.zoneType == tile.zoneType &&
            adj.level == requiredLevel && adj.isHighClass

/-- JS `canZoneGrow(tile, x, y)`. -/
def canZoneGrow (c : City) (tile : Tile) (x y : Nat) : Bool :=
  if tile.isMaxLevel then false
  else
    let nextLevel := tile.level + 1
    if tile.getMaxLevel ≤ nextLevel then canReachTopLevel c tile x y
    else if tile.isCommercial then
      decide (COMMERCIAL_LAND_VALUE_REQUIREMENTS nextLevel ≤ tile.getEffectiveLandValue)
    else true

/-- The per-tile body of the `developZone` footprint loop. -/
def developTileF (coin : Bool) (t : Tile) : Tile :=
  let t := t.develop
  let t := { t with level := 1, density := 1 }
  if t.isMainTile then (t.updateStats).updateZoneClass coin else t

/-- JS `developZone(x, y, zoneType)`: change the whole footprint from
zone to building at level 1 (nothing happens when the registry lookup
fails). -/
def developZone (c : City) (x y : Nat) (coin : Bool) : City :=
  match c.getTile x y with
  | none => c
  | some mainTile =>
    match c.buildingsGet mainTile.buildingId with
    | none => c
    | some building =>
      footprintApply c x y building.width building.height (developTileF coin)

/-- The per-tile body of the `increaseZoneDensity` footprint loop. -/
def increaseTileF (coin : Bool) (t : Tile) : Tile :=
  let t := t.increaseLevel
  if t.isMainTile then (t.updateStats).updateZoneClass coin else t

/-- JS `increaseZoneDensity(x, y)`. -/
def increaseZoneDensity (c : City) (x y : Nat) (coin : Bool) : City :=
  match c.getTile x y with
  | none => c
  | some mainTile =>
    match c.buildingsGet mainTile.buildingId with
    | none => c
    | some building =>
      if mainTile.isMaxLevel then c
      else footprintApply c x y building.width building.height (increaseTileF coin)

/-- The per-tile body of the `decreaseZoneDensity` footprint loop. -/
def decreaseTileF (coin : Bool) (t : Tile) : Tile :=
  if 0 < t.level then
    let t := t.decreaseLevel
    if t.isMainTile then (t.updateStats).updateZoneClass coin else t
  else t

/-- JS `decreaseZoneDensity(x, y)`. -/
def decreaseZoneDensity (c : City) (x y : Nat) (coin : Bool) : City :=
  match c.getTile x y with
  | none => c
  | some mainTile =>
    match c.buildingsGet mainTile.buildingId with
    | none => c
    | some building =>
      footprintApply c x y building.width building.height (decreaseTileF coin)

/-- The body of the `updateZoneDevelopment` loop at the main tile
`(x, y)`: `r` is the tick's `Math.random()` draw for whichever roll the
taken branch performs, `coin` the draw `updateZoneClass` would use for
an industrial zone's class. -/
def zoneDevelopmentStep (c : City) (d : Demands) (x y : Nat) (r : ℚ) (coin : Bool) :
    City :=
  let tile := c.tiles y x
  if !tile.isMainTile || tile.zoneType == none then c
  else
    let canDevelop := tile.powered && tile.roadAccess
    if tile.isZone then
      (if canDevelop then
        (let demand := getDemandForZone d tile.zoneType
         if 0 < demand ∧ r < demand * (1 / 10) then developZone c x y coin else c)
       else c)
    else if tile.isBuilding then
      (if canDevelop then
        (let demand := getDemandForZone d tile.zoneType
         let growthChance := calculateGrowthChance tile demand
         if r < growthChance then
           (if canZoneGrow c tile x y then increaseZoneDensity c x y coin else c)
         else c)
       else if !tile.powered then
        (if r < 1 / 10 then decreaseZoneDensity c x y coin else c)
       else c)
    else c

end Simulation

/-- Iterate the per-zone development step over ticks, feeding the
tick-indexed stream of `(roll, class coin)` RNG draws. -/
def iterateZoneDev (c : City) (d : Demands) (x y : Nat) (rs : Nat → ℚ × Bool) :
    Nat → City
  | 0 => c
  | n + 1 =>
    Simulation.zoneDevelopmentStep (iterateZoneDev c d x y rs n) d x y
      (rs n).1 (rs n).2


/-! ### Facts about the zone development step -/

namespace Tile

lemma updateStats_level (t : Tile) : t.updateStats.level = t.level := by
  unfold updateStats; split_ifs <;> rfl

lemma updateStats_powered (t : Tile) : t.updateStats.powered = t.powered := by
  unfold updateStats; split_ifs <;> rfl

lemma updateStats_roadAccess (t : Tile) : t.updateStats.roadAccess = t.roadAccess := by
  unfold updateStats; split_ifs <;> rfl

lemma updateStats_isMainTile (t : Tile) : t.updateStats.isMainTile = t.isMainTile := by
  unfold updateStats; split_ifs <;> rfl

lemma updateStats_type (t : Tile) : t.updateStats.type = t.type := by
  unfold updateStats; split_ifs <;> rfl

lemma updateZoneClass_level (t : Tile) (coin : Bool) :
    (t.updateZoneClass coin).level = t.level := by
  unfold updateZoneClass; split_ifs <;> rfl

lemma updateZoneClass_powered (t : Tile) (coin : Bool) :
    (t.updateZoneClass coin).powered = t.powered := by
  unfold updateZoneClass; split_ifs <;> rfl

lemma updateZoneClass_roadAccess (t : Tile) (coin : Bool) :
    (t.updateZoneClass coin).roadAccess = t.roadAccess := by
  unfold updateZoneClass; split_ifs <;> rfl

lemma updateZoneClass_isMainTile (t : Tile) (coin : Bool) :
    (t.updateZoneClass coin).isMainTile = t.isMainTile := by
  unfold updateZoneClass; split_ifs <;> rfl

lemma updateZoneClass_type (t : Tile) (coin : Bool) :
    (t.updateZoneClass coin).type = t.type := by
  unfold updateZoneClass; split_ifs <;> rfl

lemma increaseLevel_level (t : Tile) :
    t.increaseLevel.level = if t.level < t.getMaxLevel then t.level + 1 else t.level := by
  unfold increaseLevel
  split_ifs with h <;> simp [updateStats_level]

lemma increaseLevel_powered (t : Tile) : t.increaseLevel.powered = t.powered := by
  unfold increaseLevel; split_ifs <;> simp [updateStats_powered]

lemma increaseLevel_roadAccess (t : Tile) : t.increaseLevel.roadAccess = t.roadAccess := by
  unfold increaseLevel; split_ifs <;> simp [updateStats_roadAccess]

lemma increaseLevel_isMainTile (t : Tile) : t.increaseLevel.isMainTile = t.isMainTile := by
  unfold increaseLevel; split_ifs <;> simp [updateStats_isMainTile]

lemma increaseLevel_type (t : Tile) : t.increaseLevel.type = t.type := by
  unfold increaseLevel; split_ifs <;> simp [updateStats_type]

lemma decreaseLevel_level (t : Tile) :
    t.decreaseLevel.level = if 0 < t.level then t.level - 1 else t.level := by
  unfold decreaseLevel
  split_ifs with h <;> simp [updateStats_level]

lemma decreaseLevel_powered (t : Tile) : t.decreaseLevel.powered = t.powered := by
  unfold decreaseLevel; split_ifs <;> simp [updateStats_powered]

lemma decreaseLevel_roadAccess (t : Tile) : t.decreaseLevel.roadAccess = t.roadAccess := by
  unfold decreaseLevel; split_ifs <;> simp [updateStats_roadAccess]

lemma decreaseLevel_isMainTile (t : Tile) : t.decreaseLevel.isMainTile = t.isMainTile := by
  unfold decreaseLevel; split_ifs <;> simp [updateStats_isMainTile]

lemma decreaseLevel_type (t : Tile) : t.decreaseLevel.type = t.type := by
  unfold decreaseLevel; split_ifs <;> simp [updateStats_type]

lemma develop_level (t : Tile) : t.develop.level = t.level := by
  unfold develop; split_ifs <;> rfl

lemma develop_powered (t : Tile) : t.develop.powered = t.powered := by
  unfold develop; split_ifs <;> rfl

lemma develop_roadAccess (t : Tile) : t.develop.roadAccess = t.roadAccess := by
  unfold develop; split_ifs <;> rfl

lemma develop_isMainTile (t : Tile) : t.develop.isMainTile = t.isMainTile := by
  unfold develop; split_ifs <;> rfl

lemma develop_isZone (t : Tile) : t.develop.isZone = false := by
  unfold develop
  unfold isZone at *
  split_ifs with h1 h2 h3 <;>
    simp_all [TILE_TYPES.ZONE_RESIDENTIAL, TILE_TYPES.ZONE_COMMERCIAL,
      TILE_TYPES.ZONE_INDUSTRIAL, TILE_TYPES.BUILDING_RESIDENTIAL,
      TILE_TYPES.BUILDING_COMMERCIAL, TILE_TYPES.BUILDING_INDUSTRIAL]

lemma develop_isResidential (t : Tile) : t.develop.isResidential = t.isResidential := by
  unfold develop
  unfold isZone isResidential at *
  split_ifs with h1 h2 h3 <;>
    simp_all [TILE_TYPES.ZONE_RESIDENTIAL, TILE_TYPES.ZONE_COMMERCIAL,
      TILE_TYPES.ZONE_INDUSTRIAL, TILE_TYPES.BUILDING_RESIDENTIAL,
      TILE_TYPES.BUILDING_COMMERCIAL, TILE_TYPES.BUILDING_INDUSTRIAL] <;> omega

lemma isZone_isBuilding_incompatible (t : Tile) :
    t.isZone = true → t.isBuilding = true → False := by
  unfold isZone isBuilding
  intro h1 h2
  simp [TILE_TYPES.ZONE_RESIDENTIAL, TILE_TYPES.ZONE_COMMERCIAL,
    TILE_TYPES.ZONE_INDUSTRIAL, TILE_TYPES.BUILDING_RESIDENTIAL,
    TILE_TYPES.BUILDING_COMMERCIAL, TILE_TYPES.BUILDING_INDUSTRIAL] at h1 h2
  omega

end Tile

namespace Simulation

lemma developTileF_level (coin : Bool) (t : Tile) : (developTileF coin t).level = 1 := by
  unfold developTileF
  dsimp only
  split_ifs <;> simp [Tile.updateZoneClass_level, Tile.updateStats_level]

lemma developTileF_powered (coin : Bool) (t : Tile) :
    (developTileF coin t).powered = t.powered := by
  unfold developTileF
  dsimp only
  split_ifs <;>
    simp [Tile.updateZoneClass_powered, Tile.updateStats_powered, Tile.develop_powered]

lemma developTileF_roadAccess (coin : Bool) (t : Tile) :
    (developTileF coin t).roadAccess = t.roadAccess := by
  unfold developTileF
  dsimp only
  split_ifs <;>
    simp [Tile.updateZoneClass_roadAccess, Tile.updateStats_roadAccess,
      Tile.develop_roadAccess]

lemma developTileF_isMainTile (coin : Bool) (t : Tile) :
    (developTileF coin t).isMainTile = t.isMainTile := by
  unfold developTileF
  dsimp only
  split_ifs <;>
    simp [Tile.updateZoneClass_isMainTile, Tile.updateStats_isMainTile,
      Tile.develop_isMainTile]

lemma developTileF_isZone (coin : Bool) (t : Tile) :
    (developTileF coin t).isZone = false := by
  unfold developTileF
  dsimp only
  have h := Tile.develop_isZone t
  unfold Tile.isZone at *
  split_ifs <;>
    simp_all [Tile.updateZoneClass_type, Tile.updateStats_type]

lemma developTileF_isResidential (coin : Bool) (t : Tile) :
    (developTileF coin t).isResidential = t.isResidential := by
  unfold developTileF
  dsimp only
  have h := Tile.develop_isResidential t
  unfold Tile.isResidential at *
  split_ifs <;>
    simp_all [Tile.updateZoneClass_type, Tile.updateStats_type]

lemma increaseTileF_level (coin : Bool) (t : Tile) :
    (increaseTileF coin t).level =
      if t.level < t.getMaxLevel then t.level + 1 else t.level := by
  unfold increaseTileF
  dsimp only
  split_ifs <;>
    simp [Tile.updateZoneClass_level, Tile.updateStats_level,
      Tile.increaseLevel_level] <;> omega

lemma increaseTileF_powered (coin : Bool) (t : Tile) :
    (increaseTileF coin t).powered = t.powered := by
  unfold increaseTileF
  dsimp only
  split_ifs <;>
    simp [Tile.updateZoneClass_powered, Tile.updateStats_powered,
      Tile.increaseLevel_powered]

lemma increaseTileF_roadAccess (coin : Bool) (t : Tile) :
    (increaseTileF coin t).roadAccess = t.roadAccess := by
  unfold increaseTileF
  dsimp only
  split_ifs <;>
    simp [Tile.updateZoneClass_roadAccess, Tile.updateStats_roadAccess,
      Tile.increaseLevel_roadAccess]

lemma increaseTileF_isMainTile (coin : Bool) (t : Tile) :
    (increaseTileF coin t).isMainTile = t.isMainTile := by
  unfold increaseTileF
  dsimp only
  split_ifs <;>
    simp [Tile.updateZoneClass_isMainTile, Tile.updateStats_isMainTile,
      Tile.increaseLevel_isMainTile]

lemma increaseTileF_type (coin : Bool) (t : Tile) :
    (increaseTileF coin t).type = t.type := by
  unfold increaseTileF
  dsimp only
  split_ifs <;>
    simp [Tile.updateZoneClass_type, Tile.updateStats_type, Tile.increaseLevel_type]

lemma decreaseTileF_level (coin : Bool) (t : Tile) :
    (decreaseTileF coin t).level ≤ t.level := by
  unfold decreaseTileF
  dsimp only
  split_ifs <;>
    simp [Tile.updateZoneClass_level, Tile.updateStats_level,
      Tile.decreaseLevel_level] <;> split_ifs <;> omega

lemma decreaseTileF_powered (coin : Bool) (t : Tile) :
    (decreaseTileF coin t).powered = t.powered := by
  unfold decreaseTileF
  dsimp only
  split_ifs <;>
    simp [Tile.updateZoneClass_powered, Tile.updateStats_powered,
      Tile.decreaseLevel_powered]

lemma decreaseTileF_type (coin : Bool) (t : Tile) :
    (decreaseTileF coin t).type = t.type := by
  unfold decreaseTileF
  dsimp only
  split_ifs <;>
    simp [Tile.updateZoneClass_type, Tile.updateStats_type, Tile.decreaseLevel_type]

end Simulation


namespace Simulation

lemma getTile_self (c : City) (x y : Nat) (hx : x < c.width) (hy : y < c.height) :
    c.getTile x y = some (c.tiles y x) := by
  simp [City.getTile, City.isInBounds, hx, hy]

lemma footprintApply_or (c : City) (x y : Nat) (b : Building) (F : Tile → Tile)
    (hx : x < c.width) (hy : y < c.height) :
    (footprintApply c x y b.width b.height F).tiles y x = c.tiles y x ∨
    (footprintApply c x y b.width b.height F).tiles y x = F (c.tiles y x) := by
  by_cases hw : 0 < b.width
  · by_cases hh2 : 0 < b.height
    · exact Or.inr (footprintApply_main c x y b.width b.height F hw hh2 hx hy)
    · left
      refine footprintApply_untouched c x y b.width b.height F x y ?_
      intro cell hcell
      rw [mem_cellsRowMajor] at hcell
      omega
  · left
    refine footprintApply_untouched c x y b.width b.height F x y ?_
    intro cell hcell
    rw [mem_cellsRowMajor] at hcell
    omega

lemma developZone_tiles_at (c : City) (x y : Nat) (coin : Bool)
    (hx : x < c.width) (hy : y < c.height) :
    (developZone c x y coin).tiles y x = c.tiles y x ∨
    (developZone c x y coin).tiles y x = developTileF coin (c.tiles y x) := by
  unfold developZone
  rw [getTile_self c x y hx hy]
  dsimp only
  cases hbg : c.buildingsGet (c.tiles y x).buildingId with
  | none => exact Or.inl rfl
  | some b => exact footprintApply_or c x y b _ hx hy

lemma increaseZoneDensity_tiles_at (c : City) (x y : Nat) (coin : Bool)
    (hx : x < c.width) (hy : y < c.height) :
    (increaseZoneDensity c x y coin).tiles y x = c.tiles y x ∨
    (increaseZoneDensity c x y coin).tiles y x = increaseTileF coin (c.tiles y x) := by
  unfold increaseZoneDensity
  rw [getTile_self c x y hx hy]
  dsimp only
  cases hbg : c.buildingsGet (c.tiles y x).buildingId with
  | none => exact Or.inl rfl
  | some b =>
    by_cases hml : (c.tiles y x).isMaxLevel
    · left
      simp only [hml, if_true]
    · simp only [hml, if_false]
      exact footprintApply_or c x y b _ hx hy

lemma decreaseZoneDensity_tiles_at (c : City) (x y : Nat) (coin : Bool)
    (hx : x < c.width) (hy : y < c.height) :
    (decreaseZoneDensity c x y coin).tiles y x = c.tiles y x ∨
    (decreaseZoneDensity c x y coin).tiles y x = decreaseTileF coin (c.tiles y x) := by
  unfold decreaseZoneDensity
  rw [getTile_self c x y hx hy]
  dsimp only
  cases hbg : c.buildingsGet (c.tiles y x).buildingId with
  | none => exact Or.inl rfl
  | some b => exact footprintApply_or c x y b _ hx hy

lemma developZone_width (c : City) (x y : Nat) (coin : Bool) :
    (developZone c x y coin).width = c.width := by
  unfold developZone
  cases c.getTile x y with
  | none => rfl
  | some mt =>
    dsimp only
    cases c.buildingsGet mt.buildingId with
    | none => rfl
    | some b => exact footprintApply_width ..

lemma developZone_height (c : City) (x y : Nat) (coin : Bool) :
    (developZone c x y coin).height = c.height := by
  unfold developZone
  cases c.getTile x y with
  | none => rfl
  | some mt =>
    dsimp only
    cases c.buildingsGet mt.buildingId with
    | none => rfl
    | some b => exact footprintApply_height ..

lemma increaseZoneDensity_width (c : City) (x y : Nat) (coin : Bool) :
    (increaseZoneDensity c x y coin).width = c.width := by
  unfold increaseZoneDensity
  cases c.getTile x y with
  | none => rfl
  | some mt =>
    dsimp only
    cases c.buildingsGet mt.buildingId with
    | none => rfl
    | some b =>
      by_cases hml : mt.isMaxLevel <;> simp [hml] <;> exact footprintApply_width ..

lemma increaseZoneDensity_height (c : City) (x y : Nat) (coin : Bool) :
    (increaseZoneDensity c x y coin).height = c.height := by
  unfold increaseZoneDensity
  cases c.getTile x y with
  | none => rfl
  | some mt =>
    dsimp only
    cases c.buildingsGet mt.buildingId with
    | none => rfl
    | some b =>
      by_cases hml : mt.isMaxLevel <;> simp [hml] <;> exact footprintApply_height ..

lemma decreaseZoneDensity_width (c : City) (x y : Nat) (coin : Bool) :
    (decreaseZoneDensity c x y coin).width = c.width := by
  unfold decreaseZoneDensity
  cases c.getTile x y with
  | none => rfl
  | some mt =>
    dsimp only
    cases c.buildingsGet mt.buildingId with
    | none => rfl
    | some b => exact footprintApply_width ..

lemma decreaseZoneDensity_height (c : City) (x y : Nat) (coin : Bool) :
    (decreaseZoneDensity c x y coin).height = c.height := by
  unfold decreaseZoneDensity
  cases c.getTile x y with
  | none => rfl
  | some mt =>
    dsimp only
    cases c.buildingsGet mt.buildingId with
    | none => rfl
    | some b => exact footprintApply_height ..

lemma zoneDevelopmentStep_width (c : City) (d : Demands) (x y : Nat) (r : ℚ)
    (coin : Bool) : (zoneDevelopmentStep c d x y r coin).width = c.width := by
  unfold zoneDevelopmentStep
  dsimp only
  split_ifs <;>
    first
      | rfl
      | exact developZone_width ..
      | exact increaseZoneDensity_width ..
      | exact decreaseZoneDensity_width ..

lemma zoneDevelopmentStep_height (c : City) (d : Demands) (x y : Nat) (r : ℚ)
    (coin : Bool) : (zoneDevelopmentStep c d x y r coin).height = c.height := by
  unfold zoneDevelopmentStep
  dsimp only
  split_ifs <;>
    first
      | rfl
      | exact developZone_height ..
      | exact increaseZoneDensity_height ..
      | exact decreaseZoneDensity_height ..

/-- Everything the development step can do to the main tile at `(x, y)`:
leave it alone, develop the undeveloped zone (powered and road-accessed),
grow the building by one level (powered, road-accessed, `canZoneGrow`
passed), or shrink the unpowered building. -/
lemma zoneDevelopmentStep_cases (c : City) (d : Demands) (x y : Nat) (r : ℚ)
    (coin : Bool) (hx : x < c.width) (hy : y < c.height) :
    (zoneDevelopmentStep c d x y r coin).tiles y x = c.tiles y x ∨
    ((c.tiles y x).isZone = true ∧ (c.tiles y x).powered = true ∧
      (c.tiles y x).roadAccess = true ∧
      (zoneDevelopmentStep c d x y r coin).tiles y x =
        developTileF coin (c.tiles y x)) ∨
    ((c.tiles y x).isBuilding = true ∧ (c.tiles y x).powered = true ∧
      (c.tiles y x).roadAccess = true ∧
      canZoneGrow c (c.tiles y x) x y = true ∧
      (zoneDevelopmentStep c d x y r coin).tiles y x =
        increaseTileF coin (c.tiles y x)) ∨
    ((c.tiles y x).isBuilding = true ∧ (c.tiles y x).powered = false ∧
      (zoneDevelopmentStep c d x y r coin).tiles y x =
        decreaseTileF coin (c.tiles y x)) := by
  unfold zoneDevelopmentStep
  dsimp only
  set t := c.tiles y x with ht
  by_cases h0 : (!t.isMainTile || t.zoneType == none) = true
  · rw [if_pos h0]
    exact Or.inl rfl
  · rw [if_neg h0]
    by_cases h1 : t.isZone = true
    · rw [if_pos h1]
      by_cases h2 : (t.powered && t.roadAccess) = true
      · rw [if_pos h2]
        by_cases h3 : 0 < getDemandForZone d t.zoneType ∧
            r < getDemandForZone d t.zoneType * (1 / 10)
        · rw [if_pos h3]
          rcases developZone_tiles_at c x y coin hx hy with hsame | hdev
          · exact Or.inl hsame
          · rw [Bool.and_eq_true] at h2
            exact Or.inr (Or.inl ⟨h1, h2.1, h2.2, hdev⟩)
        · rw [if_neg h3]
          exact Or.inl rfl
      · rw [if_neg h2]
        exact Or.inl rfl
    · rw [if_neg h1]
      by_cases h4 : t.isBuilding = true
      · rw [if_pos h4]
        by_cases h2 : (t.powered && t.roadAccess) = true
        · rw [if_pos h2]
          by_cases h5 : r < calculateGrowthChance t (getDemandForZone d t.zoneType)
          · rw [if_pos h5]
            by_cases h6 : canZoneGrow c t x y = true
            · rw [if_pos h6]
              rcases increaseZoneDensity_tiles_at c x y coin hx hy with hsame | hinc
              · exact Or.inl hsame
              · rw [Bool.and_eq_true] at h2
                exact Or.inr (Or.inr (Or.inl ⟨h4, h2.1, h2.2, h6, hinc⟩))
            · rw [if_neg h6]
              exact Or.inl rfl
          · rw [if_neg h5]
            exact Or.inl rfl
        · rw [if_neg h2]
          by_cases h7 : (!t.powered) = true
          · rw [if_pos h7]
            by_cases h8 : r < 1 / 10
            · rw [if_pos h8]
              rcases decreaseZoneDensity_tiles_at c x y coin hx hy with hsame | hdec
              · exact Or.inl hsame
              · refine Or.inr (Or.inr (Or.inr ⟨h4, ?_, hdec⟩))
                simpa using h7
            · rw [if_neg h8]
              exact Or.inl rfl
          · rw [if_neg h7]
            exact Or.inl rfl
      · rw [if_neg h4]
        exact Or.inl rfl

end Simulation


/-! ### Claim C4: residential level monotonicity and the R-TOP gate -/

lemma Tile.getMaxLevel_cases (t : Tile) :
    t.getMaxLevel = 0 ∨ t.getMaxLevel = 9 ∨ t.getMaxLevel = 5 ∨ t.getMaxLevel = 4 := by
  unfold Tile.getMaxLevel
  cases t.zoneType with
  | none => exact Or.inl rfl
  | some z => cases z with
    | residential => exact Or.inr (Or.inl rfl)
    | commercial => exact Or.inr (Or.inr (Or.inl rfl))
    | industrial => exact Or.inr (Or.inr (Or.inr rfl))

lemma Tile.isResidential_not_isIndustrial (t : Tile)
    (h : t.isResidential = true) : t.isIndustrial = false := by
  unfold Tile.isResidential at h
  unfold Tile.isIndustrial
  rw [Bool.or_eq_true] at h
  rcases h with h | h <;>
    simp_all [TILE_TYPES.ZONE_RESIDENTIAL, TILE_TYPES.BUILDING_RESIDENTIAL,
      TILE_TYPES.ZONE_INDUSTRIAL, TILE_TYPES.BUILDING_INDUSTRIAL]

lemma Tile.type_eq_isResidential {t t2 : Tile} (h : t2.type = t.type) :
    t2.isResidential = t.isResidential := by
  unfold Tile.isResidential
  rw [h]

lemma Tile.type_eq_isZone {t t2 : Tile} (h : t2.type = t.type) :
    t2.isZone = t.isZone := by
  unfold Tile.isZone
  rw [h]

/-- The state hypotheses of claim C4, as an invariant of the development
step: the main tile at `(x, y)` is residential, powered and
road-accessed, and if still an undeveloped zone it sits at level 0. -/
def resDevInv (x y : Nat) (c : City) : Prop :=
  x < c.width ∧ y < c.height ∧
  (c.tiles y x).isResidential = true ∧
  (c.tiles y x).powered = true ∧
  (c.tiles y x).roadAccess = true ∧
  ((c.tiles y x).isZone = true → (c.tiles y x).level = 0)

lemma resDevInv_step (c : City) (d : Demands) (x y : Nat) (r : ℚ) (coin : Bool)
    (h : resDevInv x y c) :
    resDevInv x y (Simulation.zoneDevelopmentStep c d x y r coin) := by
  obtain ⟨hx, hy, hres, hpow, hroad, hlz⟩ := h
  have hw := Simulation.zoneDevelopmentStep_width c d x y r coin
  have hh := Simulation.zoneDevelopmentStep_height c d x y r coin
  refine ⟨by omega, by omega, ?_⟩
  rcases Simulation.zoneDevelopmentStep_cases c d x y r coin hx hy with
    hsame | ⟨hz, _, _, hdev⟩ | ⟨hb, _, _, _, hinc⟩ | ⟨hb, hpf, _⟩
  · rw [hsame]
    exact ⟨hres, hpow, hroad, hlz⟩
  · rw [hdev]
    refine ⟨?_, ?_, ?_, ?_⟩
    · rw [Simulation.developTileF_isResidential]
      exact hres
    · rw [Simulation.developTileF_powered]
      exact hpow
    · rw [Simulation.developTileF_roadAccess]
      exact hroad
    · rw [Simulation.developTileF_isZone]
      intro hfalse
      exact absurd hfalse (by simp)
  · rw [hinc]
    have htype := Simulation.increaseTileF_type coin (c.tiles y x)
    refine ⟨?_, ?_, ?_, ?_⟩
    · rw [Tile.type_eq_isResidential htype]
      exact hres
    · rw [Simulation.increaseTileF_powered]
      exact hpow
    · rw [Simulation.increaseTileF_roadAccess]
      exact hroad
    · rw [Tile.type_eq_isZone htype]
      intro hzz
      exact (Tile.isZone_isBuilding_incompatible _ hzz hb).elim
  · rw [hpf] at hpow
    exact absurd hpow (by simp)

lemma resDev_level_mono (c : City) (d : Demands) (x y : Nat) (r : ℚ) (coin : Bool)
    (h : resDevInv x y c) :
    (c.tiles y x).level ≤
      ((Simulation.zoneDevelopmentStep c d x y r coin).tiles y x).level := by
  obtain ⟨hx, hy, hres, hpow, hroad, hlz⟩ := h
  rcases Simulation.zoneDevelopmentStep_cases c d x y r coin hx hy with
    hsame | ⟨hz, _, _, hdev⟩ | ⟨hb, _, _, _, hinc⟩ | ⟨hb, hpf, _⟩
  · rw [hsame]
  · rw [hdev, Simulation.developTileF_level, hlz hz]
    omega
  · rw [hinc, Simulation.increaseTileF_level]
    split_ifs <;> omega
  · rw [hpf] at hpow
    exact absurd hpow (by simp)

lemma canZoneGrow_top_extract (c : City) (t : Tile) (x y : Nat)
    (hlev : t.level = 8) (hmax : t.getMaxLevel = 9) (hni : t.isIndustrial = false)
    (hg : Simulation.canZoneGrow c t x y = true) :
    t.isHighClass = true ∧
    ∃ off ∈ [((-3 : Int), (0 : Int)), (3, 0), (0, -3), (0, 3)],
      ∃ adj, c.getTileI ((x : Int) + off.1) ((y : Int) + off.2) = some adj ∧
        adj.isMainTile = true ∧ adj.zoneType = t.zoneType ∧ adj.level = 8 ∧
        adj.isHighClass = true := by
  unfold Simulation.canZoneGrow at hg
  rw [if_neg (by simp [Tile.isMaxLevel, hmax, hlev])] at hg
  rw [if_pos (by omega : t.getMaxLevel ≤ t.level + 1)] at hg
  unfold Simulation.canReachTopLevel at hg
  rw [if_neg (by simp [hni])] at hg
  rw [if_neg (by simp [hmax, hlev])] at hg
  by_cases hhc : t.isHighClass = true
  · refine ⟨hhc, ?_⟩
    rw [if_neg (by simp [hhc])] at hg
    rw [List.any_eq_true] at hg
    obtain ⟨off, hmem, hf⟩ := hg
    refine ⟨off, hmem, ?_⟩
    cases hadj : c.getTileI ((x : Int) + off.1) ((y : Int) + off.2) with
    | none =>
      rw [hadj] at hf
      exact absurd hf (by simp)
    | some adj =>
      rw [hadj] at hf
      simp only [Bool.and_eq_true, beq_iff_eq] at hf
      refine ⟨adj, rfl, hf.1.1.1, hf.1.1.2, ?_, hf.2⟩
      have := hf.1.2
      rw [hmax] at this
      omega
  · rw [if_pos (by simpa using hhc)] at hg
    exact absurd hg (by simp)

lemma resDev_top_gate (c : City) (d : Demands) (x y : Nat) (r : ℚ) (coin : Bool)
    (h : resDevInv x y c)
    (h9 : ((Simulation.zoneDevelopmentStep c d x y r coin).tiles y x).level = 9)
    (hne : (c.tiles y x).level ≠ 9) :
    (c.tiles y x).level = 8 ∧ (c.tiles y x).isHighClass = true ∧
    ∃ off ∈ [((-3 : Int), (0 : Int)), (3, 0), (0, -3), (0, 3)],
      ∃ adj, c.getTileI ((x : Int) + off.1) ((y : Int) + off.2) = some adj ∧
        adj.isMainTile = true ∧ adj.zoneType = (c.tiles y x).zoneType ∧
        adj.level = 8 ∧ adj.isHighClass = true := by
  obtain ⟨hx, hy, hres, hpow, hroad, hlz⟩ := h
  rcases Simulation.zoneDevelopmentStep_cases c d x y r coin hx hy with
    hsame | ⟨hz, _, _, hdev⟩ | ⟨hb, _, _, hgrow, hinc⟩ | ⟨hb, hpf, _⟩
  · rw [hsame] at h9
    exact absurd h9 hne
  · rw [hdev, Simulation.developTileF_level] at h9
    omega
  · rw [hinc, Simulation.increaseTileF_level] at h9
    by_cases hlt : (c.tiles y x).level < (c.tiles y x).getMaxLevel
    · rw [if_pos hlt] at h9
      have hlev8 : (c.tiles y x).level = 8 := by omega
      have hmax9 : (c.tiles y x).getMaxLevel = 9 := by
        rcases Tile.getMaxLevel_cases (c.tiles y x) with hm | hm | hm | hm <;> omega
      have hni := Tile.isResidential_not_isIndustrial _ hres
      obtain ⟨hhc, hadj⟩ := canZoneGrow_top_extract c (c.tiles y x) x y hlev8 hmax9 hni hgrow
      exact ⟨hlev8, hhc, hadj⟩
    · rw [if_neg hlt] at h9
      exact absurd h9 hne
  · rw [hpf] at hpow
    exact absurd hpow (by simp)

/-- C4: for a residential zone whose main tile is powered and
road-accessed (conditions the development step itself preserves) and
with residential demand 2 on every tick, the zone level is non-decreasing
from tick to tick; and a transition to level 9 (R-TOP) happens only when
the zone sits at level 8 with High class and a second residential zone
of the same type, also at level 8 and High class, is cardinally adjacent
at distance 3 at the moment of the transition. -/
theorem C4_residential_monotone_top_gate (c : City) (d : Demands) (x y : Nat)
    (rs : Nat → ℚ × Bool)
    (hx : x < c.width) (hy : y < c.height)
    (hres : (c.tiles y x).isResidential = true)
    (hpow : (c.tiles y x).powered = true)
    (hroad : (c.tiles y x).roadAccess = true)
    (hlz : (c.tiles y x).isZone = true → (c.tiles y x).level = 0)
    (hdem : d.residential = 2) :
    (∀ n, ((iterateZoneDev c d x y rs n).tiles y x).level ≤
      ((iterateZoneDev c d x y rs (n + 1)).tiles y x).level) ∧
    (∀ n, ((iterateZoneDev c d x y rs (n + 1)).tiles y x).level = 9 →
      ((iterateZoneDev c d x y rs n).tiles y x).level ≠ 9 →
      ((iterateZoneDev c d x y rs n).tiles y x).level = 8 ∧
      ((iterateZoneDev c d x y rs n).tiles y x).isHighClass = true ∧
      ∃ off ∈ [((-3 : Int), (0 : Int)), (3, 0), (0, -3), (0, 3)],
        ∃ adj, (iterateZoneDev c d x y rs n).getTileI
            ((x : Int) + off.1) ((y : Int) + off.2) = some adj ∧
          adj.isMainTile = true ∧
          adj.zoneType = ((iterateZoneDev c d x y rs n).tiles y x).zoneType ∧
          adj.level = 8 ∧ adj.isHighClass = true) := by
  have hinv : ∀ n, resDevInv x y (iterateZoneDev c d x y rs n) := by
    intro n
    induction n with
    | zero => exact ⟨hx, hy, hres, hpow, hroad, hlz⟩
    | succ k ih => exact resDevInv_step _ d x y (rs k).1 (rs k).2 ih
  constructor
  · intro n
    exact resDev_level_mono _ d x y (rs n).1 (rs n).2 (hinv n)
  · intro n h9 hne
    exact resDev_top_gate _ d x y (rs n).1 (rs n).2 (hinv n) h9 hne


/-- Witness city for C4: a powered, road-accessed 3×3 residential
building at level 3, registered as building 1. -/
def cityC4 : City where
  width := 3
  height := 3
  tiles := fun y x =>
    { Tile.new x y with
      type := TILE_TYPES.BUILDING_RESIDENTIAL
      zoneType := some ZoneType.residential
      level := 3
      powered := true
      roadAccess := true
      buildingId := some 1
      isMainTile := x == 0 && y == 0
      buildingWidth := 3
      buildingHeight := 3 }
  buildings := [(1, { id := 1, btype := "residential", x := 0, y := 0, width := 3, height := 3 })]
  nextBuildingId := 2

def dC4 : Demands where
  residential := 2
  commercial := 2
  industrial := 2

def rsC4 : Nat → ℚ × Bool := fun _ => (1, false)

theorem C4_witness :
    ((iterateZoneDev cityC4 dC4 0 0 rsC4 0).tiles 0 0).level ≤
      ((iterateZoneDev cityC4 dC4 0 0 rsC4 1).tiles 0 0).level :=
  (C4_residential_monotone_top_gate cityC4 dC4 0 0 rsC4 (by decide) (by decide)
    (by decide) (by decide) (by decide) (by decide) (by decide)).1 0

/-! ### Claim C7: the commercial land-value growth gate -/

lemma canZoneGrow_commercial_level1 (c : City) (t : Tile) (x y : Nat)
    (hcom : t.isCommercial = true)
    (hzt : t.zoneType = some ZoneType.commercial) (hlev : t.level = 1) :
    Simulation.canZoneGrow c t x y = decide (40 ≤ t.getEffectiveLandValue) := by
  have hmax : t.getMaxLevel = 5 := by
    unfold Tile.getMaxLevel
    rw [hzt]
    rfl
  unfold Simulation.canZoneGrow
  rw [if_neg (by simp [Tile.isMaxLevel, hmax, hlev])]
  rw [if_neg (by omega : ¬t.getMaxLevel ≤ t.level + 1)]
  rw [if_pos hcom, hlev]
  rfl

/-- C7: a commercial building whose main tile sits at level 1 with
effective land value (land value minus half the pollution, floored at 0)
below 40 never advances to level 2 in the development step, for every
demand value and every random outcome; once the effective land value
reaches 40, `canZoneGrow` no longer blocks the level-1-to-2 transition. -/
theorem C7_commercial_growth_gate (c : City) (d : Demands) (x y : Nat)
    (r : ℚ) (coin : Bool)
    (hx : x < c.width) (hy : y < c.height)
    (hbld : (c.tiles y x).isBuilding = true)
    (hcom : (c.tiles y x).isCommercial = true)
    (hzt : (c.tiles y x).zoneType = some ZoneType.commercial)
    (hlev : (c.tiles y x).level = 1) :
    ((c.tiles y x).getEffectiveLandValue < 40 →
      ((Simulation.zoneDevelopmentStep c d x y r coin).tiles y x).level ≤ 1) ∧
    (40 ≤ (c.tiles y x).getEffectiveLandValue →
      Simulation.canZoneGrow c (c.tiles y x) x y = true) := by
  constructor
  · intro heff
    rcases Simulation.zoneDevelopmentStep_cases c d x y r coin hx hy with
      hsame | ⟨hz, _, _, _⟩ | ⟨_, _, _, hgrow, hinc⟩ | ⟨_, _, hdec⟩
    · rw [hsame, hlev]
    · exact (Tile.isZone_isBuilding_incompatible _ hz hbld).elim
    · rw [canZoneGrow_commercial_level1 c _ x y hcom hzt hlev] at hgrow
      rw [decide_eq_true_eq] at hgrow
      omega
    · rw [hdec]
      calc (Simulation.decreaseTileF coin (c.tiles y x)).level
          ≤ (c.tiles y x).level := Simulation.decreaseTileF_level coin _
        _ ≤ 1 := by omega
  · intro heff
    rw [canZoneGrow_commercial_level1 c _ x y hcom hzt hlev]
    exact decide_eq_true heff

/-- Witness city for C7, blocked side: a commercial building main tile
at level 1 with land value 30 and no pollution (effective value 30). -/
def cityC7 : City where
  width := 3
  height := 3
  tiles := fun y x =>
    { Tile.new x y with
      type := TILE_TYPES.BUILDING_COMMERCIAL
      zoneType := some ZoneType.commercial
      level := 1
      powered := true
      roadAccess := true
      buildingId := some 1
      isMainTile := x == 0 && y == 0
      buildingWidth := 3
      buildingHeight := 3
      landValue := 30
      pollution := 0 }
  buildings := [(1, { id := 1, btype := "commercial", x := 0, y := 0, width := 3, height := 3 })]
  nextBuildingId := 2

/-- Witness city for C7, unblocked side: the same building with land
value 40. -/
def cityC7b : City where
  width := 3
  height := 3
  tiles := fun y x =>
    { Tile.new x y with
      type := TILE_TYPES.BUILDING_COMMERCIAL
      zoneType := some ZoneType.commercial
      level := 1
      powered := true
      roadAccess := true
      buildingId := some 1
      isMainTile := x == 0 && y == 0
      buildingWidth := 3
      buildingHeight := 3
      landValue := 40
      pollution := 0 }
  buildings := [(1, { id := 1, btype := "commercial", x := 0, y := 0, width := 3, height := 3 })]
  nextBuildingId := 2

def dC7 : Demands where
  residential := 2
  commercial := 2
  industrial := 2

theorem C7_witness :
    ((Simulation.zoneDevelopmentStep cityC7 dC7 0 0 0 false).tiles 0 0).level ≤ 1 ∧
    Simulation.canZoneGrow cityC7b (cityC7b.tiles 0 0) 0 0 = true :=
  ⟨(C7_commercial_growth_gate cityC7 dC7 0 0 0 false (by decide) (by decide)
      (by decide) (by decide) (by decide) (by decide)).1 (by decide),
   (C7_commercial_growth_gate cityC7b dC7 0 0 0 false (by decide) (by decide)
      (by decide) (by decide) (by decide) (by decide)).2 (by decide)⟩


/-! ### Claim C5: the road-access pass (`Simulation.updateRoadAccess`) -/

/-- A per-cell loop step that either rewrites its own cell or leaves the
city alone — the shape of both `updateRoadAccess` passes. -/
def ownCellStep (g : City → Nat × Nat → Option Tile) (acc : City) (p : Nat × Nat) :
    City :=
  match g acc p with
  | some t => acc.setTileAt p.1 p.2 t
  | none => acc

lemma ownCellStep_other (g : City → Nat × Nat → Option Tile) (acc : City)
    (p : Nat × Nat) (a b : Nat) (hne : ¬(p.1 = a ∧ p.2 = b)) :
    (ownCellStep g acc p).tiles b a = acc.tiles b a := by
  unfold ownCellStep
  cases hg : g acc p with
  | none => rfl
  | some t =>
    rw [setTileAt_tiles]
    have : (b == p.2 && a == p.1) = false := by
      simp only [Bool.and_eq_false_iff, beq_eq_false_iff_ne, ne_eq]
      omega
    rw [this]
    simp

lemma ownCellStep_width (g : City → Nat × Nat → Option Tile) (acc : City)
    (p : Nat × Nat) : (ownCellStep g acc p).width = acc.width := by
  unfold ownCellStep
  cases g acc p <;> rfl

lemma ownCellStep_height (g : City → Nat × Nat → Option Tile) (acc : City)
    (p : Nat × Nat) : (ownCellStep g acc p).height = acc.height := by
  unfold ownCellStep
  cases g acc p <;> rfl

lemma ownCellStep_buildings (g : City → Nat × Nat → Option Tile) (acc : City)
    (p : Nat × Nat) : (ownCellStep g acc p).buildings = acc.buildings := by
  unfold ownCellStep
  cases g acc p <;> rfl

lemma ownCellFold_untouched (g : City → Nat × Nat → Option Tile)
    (L : List (Nat × Nat)) (acc : City) (a b : Nat)
    (h : ∀ p ∈ L, ¬(p.1 = a ∧ p.2 = b)) :
    (L.foldl (ownCellStep g) acc).tiles b a = acc.tiles b a := by
  refine foldl_preserve_mem _ (fun c2 : City => c2.tiles b a = acc.tiles b a) _ _ rfl ?_
  intro c2 p hp hc2
  rw [ownCellStep_other g c2 p a b (h p hp), hc2]

/-- Split a nodup own-cell fold at the iteration of the cell of
interest: the final value at that cell is what that one iteration wrote,
computed from some intermediate state satisfying any invariant the step
preserves. -/
lemma ownCellFold_value (g : City → Nat × Nat → Option Tile) (P : City → Prop)
    (L : List (Nat × Nat)) (acc : City) (p : Nat × Nat)
    (hnd : L.Nodup) (hp : p ∈ L) (hP0 : P acc)
    (hP : ∀ c2 q, q ≠ p → P c2 → P (ownCellStep g c2 q)) :
    ∃ acc1, P acc1 ∧
      (L.foldl (ownCellStep g) acc).tiles p.2 p.1 =
        (ownCellStep g acc1 p).tiles p.2 p.1 := by
  obtain ⟨s, t, rfl⟩ := List.append_of_mem hp
  have hps : p ∉ s := by
    intro hmem
    have hdisj := (List.nodup_append.mp hnd).2.2
    exact hdisj hmem (by simp)
  refine ⟨s.foldl (ownCellStep g) acc, ?_, ?_⟩
  · refine foldl_preserve_mem _ P _ _ hP0 ?_
    intro c2 q hq hc2
    refine hP c2 q ?_ hc2
    intro hqp
    rw [hqp] at hq
    exact hps hq
  · rw [List.foldl_append, List.foldl_cons]
    have hpt : p ∉ t := by
      have := hnd.of_append_right
      exact (List.nodup_cons.mp this).1
    refine ownCellFold_untouched g t _ p.1 p.2 ?_
    intro q hq hqp
    exact hpt (by
      have : q = p := Prod.ext hqp.1 hqp.2
      rw [this] at hq
      exact hq)

/-- Equality of tiles up to the `roadAccess` field. -/
def eqExceptRA (t t2 : Tile) : Prop := t2 = { t with roadAccess := t2.roadAccess }

lemma eqExceptRA_refl (t : Tile) : eqExceptRA t t := rfl

lemma eqExceptRA_type {t t2 : Tile} (h : eqExceptRA t t2) : t2.type = t.type := by
  rw [h]

lemma eqExceptRA_set (t t2 : Tile) (v : Bool) (h : eqExceptRA t t2) :
    eqExceptRA t { t2 with roadAccess := v } := by
  unfold eqExceptRA at *
  rw [h]

/-- The state of the grid relative to the pass input: dimensions and
registry unchanged, every tile unchanged except possibly `roadAccess`. -/
def gridERA (c acc : City) : Prop :=
  acc.width = c.width ∧ acc.height = c.height ∧ acc.buildings = c.buildings ∧
  ∀ a b : Nat, eqExceptRA (c.tiles b a) (acc.tiles b a)

lemma gridERA_refl (c : City) : gridERA c c :=
  ⟨rfl, rfl, rfl, fun _ _ => eqExceptRA_refl _⟩

lemma gridERA_zoneHasRoadAccess {c acc : City} (h : gridERA c acc)
    (x y w hgt : Nat) :
    acc.zoneHasRoadAccess x y w hgt = c.zoneHasRoadAccess x y w hgt := by
  obtain ⟨hw, hh, _, ht⟩ := h
  have hget : ∀ a b : Int, ((acc.getTileI a b).elim false Tile.providesRoadAccess) =
      ((c.getTileI a b).elim false Tile.providesRoadAccess) := by
    intro a b
    unfold City.getTileI City.getTile City.isInBounds
    rw [hw, hh]
    split_ifs with h1 h2 <;> try rfl
    simp only [Option.elim_some]
    unfold Tile.providesRoadAccess Tile.isRoad Tile.isRail
    rw [eqExceptRA_type (ht a.toNat b.toNat)]
  unfold City.zoneHasRoadAccess
  simp only [hget]


lemma buildingsGet_congr {c acc : City} (h : acc.buildings = c.buildings)
    (id : Option Nat) : acc.buildingsGet id = c.buildingsGet id := by
  unfold City.buildingsGet
  rw [h]

namespace Simulation

/-- The pass-1 write decision of `updateRoadAccess`: main tiles that are
zones or RCI buildings get `roadAccess` recomputed with the zone-aware
edge check; every other cell is left alone. -/
def roadAccessPass1G (acc : City) (p : Nat × Nat) : Option Tile :=
  let tile := acc.tiles p.2 p.1
  if tile.isMainTile && (tile.isZone || tile.isBuilding) then
    some { tile with roadAccess :=
      acc.zoneHasRoadAccess p.1 p.2 tile.buildingWidth tile.buildingHeight }
  else none

/-- Pass 1 of JS `updateRoadAccess`. -/
def updateRoadAccessPass1 (c : City) : City :=
  (cellsRowMajor c.width c.height).foldl (ownCellStep roadAccessPass1G) c

/-- The pass-2 write decision: non-main tiles with a (truthy) building
id copy the `roadAccess` of their building's anchor tile. -/
def roadAccessPass2G (acc : City) (p : Nat × Nat) : Option Tile :=
  let tile := acc.tiles p.2 p.1
  if !tile.isMainTile && jsTruthy tile.buildingId then
    match acc.buildingsGet tile.buildingId with
    | some building =>
      match acc.getTile building.x building.y with
      | some mainTile => some { tile with roadAccess := mainTile.roadAccess }
      | none => none
    | none => none
  else none

/-- Pass 2 of JS `updateRoadAccess`. -/
def updateRoadAccessPass2 (c : City) : City :=
  (cellsRowMajor c.width c.height).foldl (ownCellStep roadAccessPass2G) c

/-- JS `updateRoadAccess()`: the two passes in sequence. -/
def updateRoadAccess (c : City) : City :=
  updateRoadAccessPass2 (updateRoadAccessPass1 c)

lemma roadAccessPass1G_shape (acc : City) (p : Nat × Nat) (t : Tile)
    (h : roadAccessPass1G acc p = some t) :
    ∃ v, t = { acc.tiles p.2 p.1 with roadAccess := v } := by
  unfold roadAccessPass1G at h
  dsimp only at h
  split_ifs at h with hc
  · exact ⟨_, (Option.some.injEq .. ▸ h).symm⟩

lemma roadAccessPass2G_shape (acc : City) (p : Nat × Nat) (t : Tile)
    (h : roadAccessPass2G acc p = some t) :
    ∃ v, t = { acc.tiles p.2 p.1 with roadAccess := v } := by
  unfold roadAccessPass2G at h
  dsimp only at h
  split_ifs at h with hc
  · cases hbg : acc.buildingsGet (acc.tiles p.2 p.1).buildingId with
    | none => rw [hbg] at h; exact absurd h (by simp)
    | some b =>
      rw [hbg] at h
      dsimp only at h
      cases hgt : acc.getTile b.x b.y with
      | none => rw [hgt] at h; exact absurd h (by simp)
      | some mt =>
        rw [hgt] at h
        exact ⟨_, (Option.some.injEq .. ▸ h).symm⟩

lemma gridERA_ownCellStep (c acc : City) (g : City → Nat × Nat → Option Tile)
    (p : Nat × Nat)
    (hg : ∀ t, g acc p = some t → ∃ v, t = { acc.tiles p.2 p.1 with roadAccess := v })
    (h : gridERA c acc) : gridERA c (ownCellStep g acc p) := by
  obtain ⟨hw, hh, hb, ht⟩ := h
  unfold ownCellStep
  cases hgp : g acc p with
  | none => exact ⟨hw, hh, hb, ht⟩
  | some t =>
    obtain ⟨v, rfl⟩ := hg t hgp
    refine ⟨by rw [setTileAt_width]; exact hw, by rw [setTileAt_height]; exact hh,
      by rw [setTileAt_buildings]; exact hb, ?_⟩
    intro a b
    rw [setTileAt_tiles]
    by_cases hab : (b == p.2 && a == p.1) = true
    · rw [hab]
      simp only [if_true]
      rw [Bool.and_eq_true, beq_iff_eq, beq_iff_eq] at hab
      obtain ⟨rfl, rfl⟩ := hab
      exact eqExceptRA_set _ _ v (ht p.1 p.2)
    · rw [Bool.not_eq_true] at hab
      rw [hab]
      simp only [Bool.false_eq_true, if_false]
      exact ht a b

lemma updateRoadAccessPass1_value (c : City) (x y : Nat)
    (hx : x < c.width) (hy : y < c.height) :
    (updateRoadAccessPass1 c).tiles y x =
      (if (c.tiles y x).isMainTile && ((c.tiles y x).isZone || (c.tiles y x).isBuilding)
       then { c.tiles y x with
              roadAccess := c.zoneHasRoadAccess x y (c.tiles y x).buildingWidth
                (c.tiles y x).buildingHeight }
       else c.tiles y x) := by
  obtain ⟨acc1, hP, hval⟩ := ownCellFold_value roadAccessPass1G
    (fun acc => gridERA c acc ∧ acc.tiles y x = c.tiles y x)
    (cellsRowMajor c.width c.height) c (x, y)
    (cellsRowMajor_nodup c.width c.height)
    (mem_cellsRowMajor.mpr ⟨hx, hy⟩) ⟨gridERA_refl c, rfl⟩
    (fun c2 q hq hc2 => by
      refine ⟨gridERA_ownCellStep c c2 _ q (roadAccessPass1G_shape c2 q) hc2.1, ?_⟩
      rw [ownCellStep_other _ c2 q x y ?_]
      · exact hc2.2
      · intro hxy
        exact hq (Prod.ext hxy.1 hxy.2))
  show (updateRoadAccessPass1 c).tiles y x = _
  unfold updateRoadAccessPass1
  rw [hval]
  unfold ownCellStep roadAccessPass1G
  dsimp only
  rw [hP.2]
  by_cases hc : ((c.tiles y x).isMainTile &&
      ((c.tiles y x).isZone || (c.tiles y x).isBuilding)) = true
  · rw [if_pos hc, if_pos hc, setTileAt_tiles]
    simp only [beq_self_eq_true, Bool.and_self, if_true]
    rw [gridERA_zoneHasRoadAccess hP.1]
  · rw [Bool.not_eq_true] at hc
    rw [hc]
    simp only [Bool.false_eq_true, if_false]
    exact hP.2

lemma updateRoadAccessPass2_main_unchanged (c1 : City) (x y : Nat)
    (hm : (c1.tiles y x).isMainTile = true) :
    (updateRoadAccessPass2 c1).tiles y x = c1.tiles y x := by
  unfold updateRoadAccessPass2
  refine foldl_preserve_mem _ (fun acc : City => acc.tiles y x = c1.tiles y x) _ _ rfl ?_
  intro acc q _ hacc
  by_cases hq : q = (x, y)
  · subst hq
    unfold ownCellStep roadAccessPass2G
    dsimp only
    rw [hacc, hm]
    simp [hacc]
  · rw [ownCellStep_other _ acc q x y ?_, hacc]
    intro hxy
    exact hq (Prod.ext hxy.1 hxy.2)

lemma updateRoadAccessPass2_nonmain (c1 : City) (x y : Nat) (b : Building)
    (hx : x < c1.width) (hy : y < c1.height)
    (hnm : (c1.tiles y x).isMainTile = false)
    (hid : jsTruthy (c1.tiles y x).buildingId = true)
    (hb : c1.buildingsGet ((c1.tiles y x).buildingId) = some b)
    (hbx : b.x < c1.width) (hby : b.y < c1.height)
    (hmain : (c1.tiles b.y b.x).isMainTile = true) :
    ((updateRoadAccessPass2 c1).tiles y x).roadAccess =
      (c1.tiles b.y b.x).roadAccess := by
  have hanchor_ne : ¬((x : Nat) = b.x ∧ (y : Nat) = b.y) := by
    intro hxy
    rw [← hxy.1, ← hxy.2] at hmain
    rw [hmain] at hnm
    exact absurd hnm (by simp)
  obtain ⟨acc1, hP, hval⟩ := ownCellFold_value roadAccessPass2G
    (fun acc => gridERA c1 acc ∧ acc.tiles b.y b.x = c1.tiles b.y b.x)
    (cellsRowMajor c1.width c1.height) c1 (x, y)
    (cellsRowMajor_nodup c1.width c1.height)
    (mem_cellsRowMajor.mpr ⟨hx, hy⟩) ⟨gridERA_refl c1, rfl⟩
    (fun c2 q hq hc2 => by
      refine ⟨gridERA_ownCellStep c1 c2 _ q (roadAccessPass2G_shape c2 q) hc2.1, ?_⟩
      by_cases hqa : q = (b.x, b.y)
      · subst hqa
        unfold ownCellStep roadAccessPass2G
        dsimp only
        rw [hc2.2, hmain]
        simp [hc2.2]
      · rw [ownCellStep_other _ c2 q b.x b.y ?_]
        · exact hc2.2
        · intro hxy
          exact hqa (Prod.ext hxy.1 hxy.2))
  obtain ⟨⟨hww, hhh, hbb, htt⟩, hanchor⟩ := hP
  have htile := htt x y
  have hnm2 : (acc1.tiles y x).isMainTile = false := by
    rw [htile]
    exact hnm
  have hid2 : jsTruthy (acc1.tiles y x).buildingId = true := by
    rw [htile]
    exact hid
  have hbid2 : (acc1.tiles y x).buildingId = (c1.tiles y x).buildingId := by
    rw [htile]
  have hgt : acc1.getTile b.x b.y = some (acc1.tiles b.y b.x) := by
    unfold City.getTile City.isInBounds
    rw [hww, hhh]
    rw [if_pos (by simp [hbx, hby])]
  have hg : roadAccessPass2G acc1 (x, y) =
      some { acc1.tiles y x with roadAccess := (c1.tiles b.y b.x).roadAccess } := by
    unfold roadAccessPass2G
    dsimp only
    rw [if_pos (by simp [hnm2, hid2])]
    rw [hbid2, buildingsGet_congr hbb, hb]
    dsimp only
    rw [hgt]
    dsimp only
    rw [hanchor]
  show ((updateRoadAccessPass2 c1).tiles y x).roadAccess = _
  unfold updateRoadAccessPass2
  rw [hval]
  unfold ownCellStep
  rw [hg]
  dsimp only
  rw [setTileAt_tiles]
  simp

lemma updateRoadAccessPass1_width (c : City) :
    (updateRoadAccessPass1 c).width = c.width := by
  unfold updateRoadAccessPass1
  refine foldl_preserve_mem _ (fun acc : City => acc.width = c.width) _ _ rfl ?_
  intro acc q _ hacc
  rw [ownCellStep_width, hacc]

lemma updateRoadAccessPass1_height (c : City) :
    (updateRoadAccessPass1 c).height = c.height := by
  unfold updateRoadAccessPass1
  refine foldl_preserve_mem _ (fun acc : City => acc.height = c.height) _ _ rfl ?_
  intro acc q _ hacc
  rw [ownCellStep_height, hacc]

lemma updateRoadAccessPass1_gridERA (c : City) :
    gridERA c (updateRoadAccessPass1 c) := by
  unfold updateRoadAccessPass1
  refine foldl_preserve_mem _ (gridERA c) _ _ (gridERA_refl c) ?_
  intro acc q _ hacc
  exact gridERA_ownCellStep c acc _ q (roadAccessPass1G_shape acc q) hacc

end Simulation


lemma eqExceptRA_isMainTile {t t2 : Tile} (h : eqExceptRA t t2) :
    t2.isMainTile = t.isMainTile := by
  rw [h]

/-- C5 (amended): after `updateRoadAccess`, (i) a main tile that is a
zone or an RCI building has `roadAccess` equal to the zone-aware edge
check — true iff some tile orthogonally adjacent to an edge of its
recorded footprint is a road or rail tile; (ii) a main tile of any other
kind of structure — the 6×6 airport included — is never recomputed and
keeps its previous `roadAccess`; (iii) a non-main tile of a registered
building whose anchor is an in-bounds main tile ends the pass with the
same `roadAccess` as that anchor. -/
theorem C5_road_access (c : City) (x y : Nat) (b : Building)
    (hx : x < c.width) (hy : y < c.height) :
    ((c.tiles y x).isMainTile = true →
      ((c.tiles y x).isZone || (c.tiles y x).isBuilding) = true →
      ((Simulation.updateRoadAccess c).tiles y x).roadAccess =
        c.zoneHasRoadAccess x y (c.tiles y x).buildingWidth
          (c.tiles y x).buildingHeight) ∧
    ((c.tiles y x).isMainTile = true →
      ((c.tiles y x).isZone || (c.tiles y x).isBuilding) = false →
      ((Simulation.updateRoadAccess c).tiles y x).roadAccess =
        (c.tiles y x).roadAccess) ∧
    ((c.tiles y x).isMainTile = false →
      jsTruthy (c.tiles y x).buildingId = true →
      c.buildingsGet ((c.tiles y x).buildingId) = some b →
      b.x < c.width → b.y < c.height →
      (c.tiles b.y b.x).isMainTile = true →
      ((Simulation.updateRoadAccess c).tiles y x).roadAccess =
        ((Simulation.updateRoadAccess c).tiles b.y b.x).roadAccess) := by
  have hERA := Simulation.updateRoadAccessPass1_gridERA c
  obtain ⟨hw1, hh1, hb1, ht1⟩ := hERA
  have hval1 := Simulation.updateRoadAccessPass1_value c x y hx hy
  refine ⟨?_, ?_, ?_⟩
  · intro hm hzb
    have hcond : ((c.tiles y x).isMainTile &&
        ((c.tiles y x).isZone || (c.tiles y x).isBuilding)) = true := by
      rw [hm, hzb]
      rfl
    rw [if_pos hcond] at hval1
    have hm1 : ((Simulation.updateRoadAccessPass1 c).tiles y x).isMainTile = true := by
      rw [hval1]
      exact hm
    show ((Simulation.updateRoadAccessPass2
      (Simulation.updateRoadAccessPass1 c)).tiles y x).roadAccess = _
    rw [Simulation.updateRoadAccessPass2_main_unchanged _ x y hm1, hval1]
  · intro hm hzb
    have hcond : ((c.tiles y x).isMainTile &&
        ((c.tiles y x).isZone || (c.tiles y x).isBuilding)) = false := by
      rw [hm, hzb]
      rfl
    rw [hcond] at hval1
    simp only [Bool.false_eq_true, if_false] at hval1
    have hm1 : ((Simulation.updateRoadAccessPass1 c).tiles y x).isMainTile = true := by
      rw [hval1]
      exact hm
    show ((Simulation.updateRoadAccessPass2
      (Simulation.updateRoadAccessPass1 c)).tiles y x).roadAccess = _
    rw [Simulation.updateRoadAccessPass2_main_unchanged _ x y hm1, hval1]
  · intro hm hid hget hbx hby hmain
    have hcond : ((c.tiles y x).isMainTile &&
        ((c.tiles y x).isZone || (c.tiles y x).isBuilding)) = false := by
      rw [hm]
      rfl
    rw [hcond] at hval1
    simp only [Bool.false_eq_true, if_false] at hval1
    have hm1 : ((Simulation.updateRoadAccessPass1 c).tiles y x).isMainTile = false := by
      rw [hval1]
      exact hm
    have hid1 : jsTruthy ((Simulation.updateRoadAccessPass1 c).tiles y x).buildingId
        = true := by
      rw [hval1]
      exact hid
    have hget1 : (Simulation.updateRoadAccessPass1 c).buildingsGet
        (((Simulation.updateRoadAccessPass1 c).tiles y x).buildingId) = some b := by
      rw [hval1, buildingsGet_congr hb1]
      exact hget
    have hmain1 : ((Simulation.updateRoadAccessPass1 c).tiles b.y b.x).isMainTile
        = true := by
      rw [eqExceptRA_isMainTile (ht1 b.x b.y)]
      exact hmain
    show ((Simulation.updateRoadAccessPass2
      (Simulation.updateRoadAccessPass1 c)).tiles y x).roadAccess = _
    rw [Simulation.updateRoadAccessPass2_nonmain _ x y b (by omega) (by omega)
      hm1 hid1 hget1 (by omega) (by omega) hmain1]
    rw [show (Simulation.updateRoadAccess c) =
      Simulation.updateRoadAccessPass2 (Simulation.updateRoadAccessPass1 c) from rfl]
    rw [Simulation.updateRoadAccessPass2_main_unchanged _ b.x b.y hmain1]


/-- Counterexample city for C5: a 6×6 airport anchored at `(1, 1)` on an
8×8 map, with a road at `(0, 1)` touching the airport's left edge. -/
def cityC5 : City where
  width := 8
  height := 8
  tiles := fun y x =>
    if 1 ≤ x ∧ x ≤ 6 ∧ 1 ≤ y ∧ y ≤ 6 then
      { Tile.new x y with
        type := TILE_TYPES.AIRPORT
        buildingId := some 1
        isMainTile := x == 1 && y == 1
        buildingWidth := if x == 1 && y == 1 then 6 else 1
        buildingHeight := if x == 1 && y == 1 then 6 else 1 }
    else if x = 0 ∧ y = 1 then { Tile.new x y with type := TILE_TYPES.ROAD }
    else Tile.new x y
  buildings := [(1, { id := 1, btype := "airport", x := 1, y := 1, width := 6, height := 6 })]
  nextBuildingId := 2

set_option maxRecDepth 8192 in
/-- C5 counterexample: the airport's footprint has a road on its edge,
yet after `updateRoadAccess` the airport's main tile still reports
`roadAccess = false` — pass 1 only recomputes zone and RCI-building main
tiles, never special buildings. -/
theorem C5_counterexample :
    cityC5.zoneHasRoadAccess 1 1 6 6 = true ∧
    (cityC5.tiles 1 1).isMainTile = true ∧
    ((Simulation.updateRoadAccess cityC5).tiles 1 1).roadAccess = false := by
  refine ⟨by decide, by decide, by decide⟩


/-- Witness city for C5: a 3×3 residential zone anchored at `(0, 0)` on
a 4×4 map, with a road at `(3, 0)` touching the zone's right edge. -/
def cityC5w : City where
  width := 4
  height := 4
  tiles := fun y x =>
    if x ≤ 2 ∧ y ≤ 2 then
      { Tile.new x y with
        type := TILE_TYPES.ZONE_RESIDENTIAL
        zoneType := some ZoneType.residential
        buildingId := some 1
        isMainTile := x == 0 && y == 0
        buildingWidth := if x == 0 && y == 0 then 3 else 1
        buildingHeight := if x == 0 && y == 0 then 3 else 1 }
    else if x = 3 ∧ y = 0 then { Tile.new x y with type := TILE_TYPES.ROAD }
    else Tile.new x y
  buildings := [(1, { id := 1, btype := "residential", x := 0, y := 0, width := 3, height := 3 })]
  nextBuildingId := 2

def bC5w : Building where
  id := 1
  btype := "residential"
  x := 0
  y := 0
  width := 3
  height := 3

def bC5 : Building where
  id := 1
  btype := "airport"
  x := 1
  y := 1
  width := 6
  height := 6

set_option maxRecDepth 8192 in
theorem C5_witness :
    ((Simulation.updateRoadAccess cityC5w).tiles 0 0).roadAccess =
      cityC5w.zoneHasRoadAccess 0 0 3 3 ∧
    ((Simulation.updateRoadAccess cityC5).tiles 1 1).roadAccess =
      (cityC5.tiles 1 1).roadAccess ∧
    ((Simulation.updateRoadAccess cityC5w).tiles 1 1).roadAccess =
      ((Simulation.updateRoadAccess cityC5w).tiles 0 0).roadAccess :=
  ⟨(C5_road_access cityC5w 0 0 bC5w (by decide) (by decide)).1 (by decide) (by decide),
   (C5_road_access cityC5 1 1 bC5 (by decide) (by decide)).2.1 (by decide) (by decide),
   (C5_road_access cityC5w 1 1 bC5w (by decide) (by decide)).2.2 (by decide) (by decide)
     (by decide) (by decide) (by decide) (by decide)⟩


/-! ### Claim C10: service coverage bounds (`Simulation.updateServices`) -/

/-- One entry of `getServiceBuildings()`. -/
structure Service where
  x : Nat
  y : Nat
  stype : String
  radius : Nat
deriving DecidableEq, Repr

/-- JS `getServiceBuildings()`: every main tile of a police or fire
station, with the nominal `SERVICE_RADIUS`. -/
def City.getServiceBuildings (c : City) : List Service :=
  (cellsRowMajor c.width c.height).foldl (fun acc cell =>
    let t := c.tiles cell.2 cell.1
    if t.isService && t.isMainTile then
      acc ++ [{ x := cell.1, y := cell.2,
                stype := if t.type == TILE_TYPES.POLICE then "police" else "fire",
                radius := if t.type == TILE_TYPES.POLICE then SERVICE_RADIUS_POLICE
                          else SERVICE_RADIUS_FIRE }]
    else acc) []

/-- The offsets the JS loop
`for (let d = -effectRadius; d <= effectRadius; d++)` visits: starting
at `-r` and stepping by 1 while `≤ r` (fractional when `r` is). -/
def jsOffsets (r : ℚ) : List ℚ :=
  if 0 ≤ r then (List.range ((2 * r).floor.toNat + 1)).map (fun k => -r + (k : ℚ))
  else []

/-- JS `NaN`, `Infinity` and `-Infinity` next to the ordinary numbers:
the values the `effect` arithmetic of `updateServices` can produce. -/
inductive JNum where
  | num (q : ℚ)
  | nan
  | inf
  | neginf
deriving DecidableEq, Repr

/-- JS division as it appears in `dist / effectRadius`: division by zero
gives `NaN` for `0 / 0` and a signed infinity otherwise. -/
def jsDiv (a b : ℚ) : JNum :=
  if b = 0 then
    (if a = 0 then JNum.nan else if 0 < a then JNum.inf else JNum.neginf)
  else JNum.num (a / b)

/-- JS subtraction on the extended numbers: `NaN` absorbs, same-signed
infinities cancel to `NaN`. -/
def jnumSub : JNum → JNum → JNum
  | JNum.num a, JNum.num b => JNum.num (a - b)
  | JNum.nan, _ => JNum.nan
  | _, JNum.nan => JNum.nan
  | JNum.num _, JNum.inf => JNum.neginf
  | JNum.num _, JNum.neginf => JNum.inf
  | JNum.inf, JNum.num _ => JNum.inf
  | JNum.neginf, JNum.num _ => JNum.neginf
  | JNum.inf, JNum.inf => JNum.nan
  | JNum.inf, JNum.neginf => JNum.inf
  | JNum.neginf, JNum.inf => JNum.neginf
  | JNum.neginf, JNum.neginf => JNum.nan

/-- JS multiplication on the extended numbers: `NaN` absorbs and
`Infinity * 0 = NaN`. -/
def jnumMul : JNum → JNum → JNum
  | JNum.num a, JNum.num b => JNum.num (a * b)
  | JNum.nan, _ => JNum.nan
  | _, JNum.nan => JNum.nan
  | JNum.inf, JNum.num b =>
      if b = 0 then JNum.nan else if 0 < b then JNum.inf else JNum.neginf
  | JNum.num a, JNum.inf =>
      if a = 0 then JNum.nan else if 0 < a then JNum.inf else JNum.neginf
  | JNum.neginf, JNum.num b =>
      if b = 0 then JNum.nan else if 0 < b then JNum.neginf else JNum.inf
  | JNum.num a, JNum.neginf =>
      if a = 0 then JNum.nan else if 0 < a then JNum.neginf else JNum.inf
  | JNum.inf, JNum.inf => JNum.inf
  | JNum.inf, JNum.neginf => JNum.neginf
  | JNum.neginf, JNum.inf => JNum.neginf
  | JNum.neginf, JNum.neginf => JNum.inf

/-- JS `Math.max`: any `NaN` argument wins, otherwise the larger value. -/
def jnumMax : JNum → JNum → JNum
  | JNum.nan, _ => JNum.nan
  | _, JNum.nan => JNum.nan
  | JNum.inf, _ => JNum.inf
  | _, JNum.inf => JNum.inf
  | JNum.neginf, b => b
  | a, JNum.neginf => a
  | JNum.num a, JNum.num b => JNum.num (max a b)

/-- The two tile fields `updateServices` writes, as planes of extended
JS numbers — a `Tile`'s rational `crime`/`fireRisk` cannot hold the
`NaN` this pass can produce. -/
structure SvcGrid where
  crime : Nat → Nat → JNum
  fireRisk : Nat → Nat → JNum

/-- The reset loop of `updateServices`: `crime = 50`, `fireRisk = 20` on
every tile of the grid. -/
def svcReset (c : City) : SvcGrid :=
  { crime := fun y x =>
      if x < c.width ∧ y < c.height then JNum.num 50 else JNum.num 0,
    fireRisk := fun y x =>
      if x < c.width ∧ y < c.height then JNum.num 20 else JNum.num 0 }

def jsUndefinedError : String := "TypeError: Cannot read properties of undefined"

/-- JS `this.city.getTile(service.x + dx, service.y + dy)` at rational
coordinates, resolved to the cell it addresses: `null` when out of
bounds (`isInBounds` rejects before any indexing); for an in-bounds
fractional row index `this.tiles[y]` is `undefined` and the `[x]` access
on it throws; an integral row with a fractional column yields
`undefined`, which the caller's `if (tile)` skips just like `null`. -/
def svcIndex (c : City) (x y : ℚ) : Except String (Option (Nat × Nat)) :=
  if ¬(0 ≤ x ∧ x < (c.width : ℚ) ∧ 0 ≤ y ∧ y < (c.height : ℚ)) then pure none
  else if y.den ≠ 1 then Except.error jsUndefinedError
  else if x.den ≠ 1 then pure none
  else pure (some (x.num.toNat, y.num.toNat))

/-- The body of the offset loops of `updateServices` for one `(dy, dx)`
pair: inside the effect radius, look the target tile up and subtract
`effect * 50` from its crime (police) or `effect * 20` from its fire
risk (fire), floored by `Math.max(0, _)` — in extended JS arithmetic, so
at radius 0 the `effect = 1 - 0/0 = NaN` propagates into the tile. -/
def serviceCellStep (c : City) (effectRadius : ℚ) (sqrtQ : ℚ → ℚ) (s : Service)
    (g : SvcGrid) (dy dx : ℚ) : Except String SvcGrid :=
  let dist := sqrtQ (dx * dx + dy * dy)
  if dist ≤ effectRadius then
    match svcIndex c ((s.x : ℚ) + dx) ((s.y : ℚ) + dy) with
    | Except.error e => Except.error e
    | Except.ok none => pure g
    | Except.ok (some txy) =>
      let effect := jnumSub (JNum.num 1) (jsDiv dist effectRadius)
      if s.stype == "police" then
        let newCrime := jnumMax (JNum.num 0)
          (jnumSub (g.crime txy.2 txy.1) (jnumMul effect (JNum.num 50)))
        pure { g with crime := fun yy xx =>
          if yy == txy.2 && xx == txy.1 then newCrime else g.crime yy xx }
      else
        let newFire := jnumMax (JNum.num 0)
          (jnumSub (g.fireRisk txy.2 txy.1) (jnumMul effect (JNum.num 20)))
        pure { g with fireRisk := fun yy xx =>
          if yy == txy.2 && xx == txy.1 then newFire else g.fireRisk yy xx }
  else pure g

/-- One service's effect loops in `updateServices` (`dy` outer, `dx`
inner), with `Math.sqrt` abstracted as `sqrtQ`. -/
def applyService (c : City) (policeFunding fireFunding : ℚ) (sqrtQ : ℚ → ℚ)
    (g : SvcGrid) (s : Service) : Except String SvcGrid :=
  let effectRadius := (s.radius : ℚ) *
    (if s.stype == "police" then policeFunding / 100 else fireFunding / 100)
  (jsOffsets effectRadius).foldlM (fun g1 dy =>
    (jsOffsets effectRadius).foldlM (fun g2 dx =>
      serviceCellStep c effectRadius sqrtQ s g2 dy dx) g1) g

/-- JS `updateServices()` (the city-wide statistics it also gathers
write no tile state and are not modelled): reset every tile's crime and
fire risk to the baselines, then apply every service building's effect;
a thrown `TypeError` surfaces as `Except.error`. -/
def Simulation.updateServices (c : City) (policeFunding fireFunding : ℚ)
    (sqrtQ : ℚ → ℚ) : Except String SvcGrid :=
  c.getServiceBuildings.foldlM (applyService c policeFunding fireFunding sqrtQ)
    (svcReset c)

/-- The bounds invariant of C10, over the whole crime/fire planes. -/
def svcInv (g : SvcGrid) : Prop :=
  ∀ y x : Nat,
    (∃ q, g.crime y x = JNum.num q ∧ 0 ≤ q ∧ q ≤ 50) ∧
    (∃ q, g.fireRisk y x = JNum.num q ∧ 0 ≤ q ∧ q ≤ 20)

lemma foldlM_except_ok {ε α β : Type} (f : β → α → Except ε β) (P : β → Prop)
    (l : List α) (b : β) (hb : P b)
    (hf : ∀ b2 a, a ∈ l → P b2 → ∃ b3, f b2 a = Except.ok b3 ∧ P b3) :
    ∃ b3, l.foldlM f b = Except.ok b3 ∧ P b3 := by
  induction l generalizing b with
  | nil => exact ⟨b, rfl, hb⟩
  | cons a t ih =>
    obtain ⟨b2, hfa, hP2⟩ := hf b a (by simp) hb
    obtain ⟨b3, hfold, hP3⟩ :=
      ih b2 hP2 (fun b4 a2 ha2 hP4 => hf b4 a2 (by simp [ha2]) hP4)
    refine ⟨b3, ?_, hP3⟩
    rw [List.foldlM_cons, hfa]
    exact hfold

lemma jsOffsets_fifteen_int (d : ℚ) (hd : d ∈ jsOffsets (15 : ℚ)) :
    ∃ m : Int, d = (m : ℚ) := by
  unfold jsOffsets at hd
  rw [if_pos (show (0 : ℚ) ≤ 15 by norm_num)] at hd
  obtain ⟨k, hk, rfl⟩ := List.mem_map.mp hd
  simp at hk
  obtain ⟨a, ha, rfl⟩ := hk
  exact ⟨-15 + (a : Int), by push_cast; ring⟩

lemma natAdd_int_den (a : Nat) (m : Int) : ((a : ℚ) + (m : ℚ)).den = 1 := by
  have h : ((a : ℚ) + (m : ℚ)) = (((a : Int) + m : Int) : ℚ) := by push_cast; ring
  rw [h, Rat.den_intCast]

lemma svcIndex_ok (c : City) (x y : ℚ) (hy : y.den = 1) :
    ∃ o, svcIndex c x y = Except.ok o := by
  unfold svcIndex
  by_cases h1 : ¬(0 ≤ x ∧ x < (c.width : ℚ) ∧ 0 ≤ y ∧ y < (c.height : ℚ))
  · rw [if_pos h1]
    exact ⟨none, rfl⟩
  · rw [if_neg h1, if_neg (show ¬(y.den ≠ 1) from fun hcon => hcon hy)]
    by_cases h3 : x.den ≠ 1
    · rw [if_pos h3]
      exact ⟨none, rfl⟩
    · rw [if_neg h3]
      exact ⟨some (x.num.toNat, y.num.toNat), rfl⟩

lemma serviceCellStep_ok (c : City) (sqrtQ : ℚ → ℚ) (hsq : ∀ q, 0 ≤ sqrtQ q)
    (s : Service) (dy dx : ℚ) (hdy : ∃ m : Int, dy = (m : ℚ))
    (g : SvcGrid) (hg : svcInv g) :
    ∃ g2, serviceCellStep c 15 sqrtQ s g dy dx = Except.ok g2 ∧ svcInv g2 := by
  unfold serviceCellStep
  dsimp only
  by_cases hdist : sqrtQ (dx * dx + dy * dy) ≤ 15
  case neg =>
    rw [if_neg hdist]
    exact ⟨g, rfl, hg⟩
  rw [if_pos hdist]
  obtain ⟨m, rfl⟩ := hdy
  obtain ⟨o, ho⟩ :=
    svcIndex_ok c ((s.x : ℚ) + dx) ((s.y : ℚ) + (m : ℚ)) (natAdd_int_den s.y m)
  rw [ho]
  cases o with
  | none => exact ⟨g, rfl, hg⟩
  | some txy =>
    dsimp only
    have hdiv : jsDiv (sqrtQ (dx * dx + (m : ℚ) * (m : ℚ))) 15 =
        JNum.num (sqrtQ (dx * dx + (m : ℚ) * (m : ℚ)) / 15) := by
      unfold jsDiv
      rw [if_neg (show ¬(15 : ℚ) = 0 by norm_num)]
    rw [hdiv]
    have he0 : 0 ≤ 1 - sqrtQ (dx * dx + (m : ℚ) * (m : ℚ)) / 15 := by
      have : sqrtQ (dx * dx + (m : ℚ) * (m : ℚ)) / 15 ≤ 1 :=
        (div_le_one (by norm_num)).mpr hdist
      linarith
    by_cases hpol : (s.stype == "police") = true
    · rw [if_pos hpol]
      refine ⟨_, rfl, ?_⟩
      intro b a
      refine ⟨?_, (hg b a).2⟩
      dsimp only
      by_cases hhit : (b == txy.2 && a == txy.1) = true
      · rw [if_pos hhit]
        obtain ⟨q, hq, hq0, hq50⟩ := (hg txy.2 txy.1).1
        rw [hq]
        refine ⟨max 0 (q - (1 - sqrtQ (dx * dx + (m : ℚ) * (m : ℚ)) / 15) * 50),
          rfl, le_max_left _ _, ?_⟩
        rw [max_le_iff]
        have hmul : 0 ≤ (1 - sqrtQ (dx * dx + (m : ℚ) * (m : ℚ)) / 15) * 50 :=
          mul_nonneg he0 (by norm_num)
        exact ⟨by norm_num, by linarith⟩
      · rw [Bool.not_eq_true] at hhit
        rw [hhit]
        simp only [Bool.false_eq_true, if_false]
        exact (hg b a).1
    · rw [if_neg hpol]
      refine ⟨_, rfl, ?_⟩
      intro b a
      refine ⟨(hg b a).1, ?_⟩
      dsimp only
      by_cases hhit : (b == txy.2 && a == txy.1) = true
      · rw [if_pos hhit]
        obtain ⟨q, hq, hq0, hq20⟩ := (hg txy.2 txy.1).2
        rw [hq]
        refine ⟨max 0 (q - (1 - sqrtQ (dx * dx + (m : ℚ) * (m : ℚ)) / 15) * 20),
          rfl, le_max_left _ _, ?_⟩
        rw [max_le_iff]
        have hmul : 0 ≤ (1 - sqrtQ (dx * dx + (m : ℚ) * (m : ℚ)) / 15) * 20 :=
          mul_nonneg he0 (by norm_num)
        exact ⟨by norm_num, by linarith⟩
      · rw [Bool.not_eq_true] at hhit
        rw [hhit]
        simp only [Bool.false_eq_true, if_false]
        exact (hg b a).2

lemma applyService_ok (c : City) (sqrtQ : ℚ → ℚ) (hsq : ∀ q, 0 ≤ sqrtQ q)
    (g : SvcGrid) (s : Service) (hrad : s.radius = 15) (hg : svcInv g) :
    ∃ g2, applyService c 100 100 sqrtQ g s = Except.ok g2 ∧ svcInv g2 := by
  unfold applyService
  dsimp only
  have hER : (s.radius : ℚ) *
      (if s.stype == "police" then (100 : ℚ) / 100 else (100 : ℚ) / 100) = 15 := by
    rw [hrad]
    split_ifs <;> norm_num
  rw [hER]
  refine foldlM_except_ok _ svcInv _ _ hg ?_
  intro g1 dy hdy hg1
  refine foldlM_except_ok _ svcInv _ _ hg1 ?_
  intro g2 dx hdx hg2
  exact serviceCellStep_ok c sqrtQ hsq s dy dx (jsOffsets_fifteen_int dy hdy) g2 hg2

lemma getServiceBuildings_radius (c : City) :
    ∀ s ∈ c.getServiceBuildings, s.radius = 15 := by
  unfold City.getServiceBuildings
  refine foldl_preserve_mem _ (fun l : List Service => ∀ s ∈ l, s.radius = 15) _ _ ?_ ?_
  · intro s hs
    simp at hs
  · intro acc cell _ hacc
    dsimp only
    split_ifs with hc hp
    · intro s hs
      rw [List.mem_append] at hs
      rcases hs with h | h
      · exact hacc s h
      · rw [List.mem_singleton] at h
        subst h
        rfl
    · intro s hs
      rw [List.mem_append] at hs
      rcases hs with h | h
      · exact hacc s h
      · rw [List.mem_singleton] at h
        subst h
        rfl
    · exact hacc

/-- C10 (amended): at the funding level the program actually uses — both
police and fire funding pinned at 100; `Budget` initializes them to 100
and nothing ever reassigns them — `updateServices` completes without a
`TypeError` and leaves every tile with `crime ∈ [0, 50]` and
`fireRisk ∈ [0, 20]`, however many service radii overlap the tile: the
radius is the integer 15, so no fractional indexing occurs, `effect`
stays an ordinary number in `[0, 1]`, and each application only
subtracts a non-negative amount floored at 0. -/
theorem C10_service_bounds (c : City) (sqrtQ : ℚ → ℚ)
    (hsq : ∀ q, 0 ≤ sqrtQ q) (x y : Nat) :
    ∃ g, Simulation.updateServices c 100 100 sqrtQ = Except.ok g ∧
      (∃ q, g.crime y x = JNum.num q ∧ 0 ≤ q ∧ q ≤ 50) ∧
      (∃ q, g.fireRisk y x = JNum.num q ∧ 0 ≤ q ∧ q ≤ 20) := by
  unfold Simulation.updateServices
  have hreset : svcInv (svcReset c) := by
    intro b a
    unfold svcReset
    dsimp only
    constructor
    · split_ifs
      · exact ⟨50, rfl, by norm_num, by norm_num⟩
      · exact ⟨0, rfl, by norm_num, by norm_num⟩
    · split_ifs
      · exact ⟨20, rfl, by norm_num, by norm_num⟩
      · exact ⟨0, rfl, by norm_num, by norm_num⟩
  obtain ⟨g, hfold, hinv⟩ := foldlM_except_ok _ svcInv _ _ hreset
    (fun g2 s hs hg2 =>
      applyService_ok c sqrtQ hsq g2 s (getServiceBuildings_radius c s hs) hg2)
  exact ⟨g, hfold, (hinv y x).1, (hinv y x).2⟩

/-- Witness city for C10: a 3×3 map holding a police station main tile. -/
def cityC10 : City where
  width := 3
  height := 3
  tiles := fun y x =>
    if x = 0 ∧ y = 0 then
      { Tile.new x y with
        type := TILE_TYPES.POLICE
        buildingId := some 1
        isMainTile := true
        buildingWidth := 3
        buildingHeight := 3 }
    else Tile.new x y
  buildings := [(1, { id := 1, btype := "police", x := 0, y := 0, width := 3, height := 3 })]
  nextBuildingId := 2

/-- A computable stand-in for `Math.sqrt` that is non-negative, which is
the only property the bound proof uses. -/
def sqrtFloor (q : ℚ) : ℚ := (Nat.sqrt q.floor.toNat : ℚ)

/-- Project the final crime value at a cell out of the pass result
(`none` when the pass threw). -/
def svcCrimeAt (r : Except String SvcGrid) (x y : Nat) : Option JNum :=
  match r with
  | Except.error _ => none
  | Except.ok g => some (g.crime y x)

/-- Project the thrown error out of the pass result. -/
def svcError (r : Except String SvcGrid) : Option String :=
  match r with
  | Except.error e => some e
  | Except.ok _ => none

/-- C10 counterexample: the claimed bounds do not hold "regardless of
funding percentages".  At police funding 0 the effect radius is 0, the
loop still visits the station's own tile, `effect = 1 - 0/0 = NaN`, and
`Math.max(0, 50 - NaN*50) = NaN` is written into crime — outside
`[0, 50]`.  At police funding 50 the radius is 7.5, and the first
in-bounds fractional row index makes `this.tiles[y][x]` throw a
`TypeError` mid-pass. -/
theorem C10_counterexample :
    svcCrimeAt (Simulation.updateServices cityC10 0 100 sqrtFloor) 0 0 =
        some JNum.nan ∧
      svcError (Simulation.updateServices cityC10 50 100 sqrtFloor) =
        some jsUndefinedError := by
  constructor
  · with_unfolding_all rfl
  · with_unfolding_all rfl

theorem C10_witness :
    (∀ q : ℚ, 0 ≤ sqrtFloor q) ∧
    (∃ g, Simulation.updateServices cityC10 100 100 sqrtFloor = Except.ok g ∧
      (∃ q, g.crime 0 0 = JNum.num q ∧ 0 ≤ q ∧ q ≤ 50) ∧
      (∃ q, g.fireRisk 0 0 = JNum.num q ∧ 0 ≤ q ∧ q ≤ 20)) :=
  ⟨fun q => by unfold sqrtFloor; exact Nat.cast_nonneg _,
   C10_service_bounds cityC10 sqrtFloor
     (fun q => by unfold sqrtFloor; exact Nat.cast_nonneg _) 0 0⟩

/-! ### Claim C6: the pollution diffusion kernel -/

/-- The points one iteration of the `diffusePollution` scatter writes,
in source order: self, up, down, left, right (each neighbour guarded by
the bounds check of the source). -/
def scatterTargets (gw gh : Nat) (cc : Nat × Nat) : List (Nat × Nat) :=
  [cc] ++ (if 0 < cc.2 then [(cc.1, cc.2 - 1)] else []) ++
    (if cc.2 < gh - 1 then [(cc.1, cc.2 + 1)] else []) ++
    (if 0 < cc.1 then [(cc.1 - 1, cc.2)] else []) ++
    (if cc.1 < gw - 1 then [(cc.1 + 1, cc.2)] else [])

lemma diffuseScatter_eq (gw gh : Nat) (grid newG : PollGrid) (cc : Nat × Nat) :
    diffuseScatter gw gh grid newG cc =
      if grid cc.2 cc.1 = 0 then newG
      else (scatterTargets gw gh cc).foldl
        (fun g t => addClamped g t.1 t.2
          (grid cc.2 cc.1 * POLLUTION_DIFFUSION_FACTOR)) newG := by
  unfold diffuseScatter scatterTargets
  dsimp only
  split_ifs <;> simp [List.foldl_append]

lemma scatterTargets_nodup (gw gh : Nat) (cc : Nat × Nat) :
    (scatterTargets gw gh cc).Nodup := by
  obtain ⟨a, b⟩ := cc
  unfold scatterTargets
  split_ifs <;> simp [Prod.ext_iff] <;> omega

lemma addClamped_apply (g : PollGrid) (tx ty : Nat) (k : ℚ) (px py : Nat) :
    addClamped g tx ty k py px =
      if py = ty ∧ px = tx then min POLLUTION_DIFFUSION_MAX_VALUE (g ty tx + k)
      else g py px := by
  unfold addClamped
  by_cases h : py = ty ∧ px = tx
  · rw [if_pos h, if_pos (by simp [h.1, h.2])]
  · rw [if_neg h, if_neg ?_]
    simp only [Bool.and_eq_true, beq_iff_eq]
    exact h

lemma addClamped_foldl_not_mem (L : List (Nat × Nat)) (k : ℚ) (g : PollGrid)
    (px py : Nat) (h : (px, py) ∉ L) :
    (L.foldl (fun g2 t => addClamped g2 t.1 t.2 k) g) py px = g py px := by
  induction L generalizing g with
  | nil => rfl
  | cons t l ih =>
    rw [List.foldl_cons]
    rw [ih _ (fun hm => h (List.mem_cons_of_mem t hm))]
    rw [addClamped_apply, if_neg ?_]
    rintro ⟨h1, h2⟩
    apply h
    subst h1
    subst h2
    simp

lemma addClamped_foldl_mem (L : List (Nat × Nat)) (k : ℚ) (g : PollGrid)
    (px py : Nat) (hnd : L.Nodup) (h : (px, py) ∈ L) :
    (L.foldl (fun g2 t => addClamped g2 t.1 t.2 k) g) py px =
      min POLLUTION_DIFFUSION_MAX_VALUE (g py px + k) := by
  obtain ⟨s, t, rfl⟩ := List.append_of_mem h
  have hps : (px, py) ∉ s := by
    intro hmem
    exact (List.nodup_append.mp hnd).2.2 hmem (by simp)
  have hpt : (px, py) ∉ t := (List.nodup_cons.mp hnd.of_append_right).1
  rw [List.foldl_append, List.foldl_cons]
  rw [addClamped_foldl_not_mem _ _ _ _ _ hpt]
  rw [addClamped_apply, if_pos ⟨rfl, rfl⟩]
  rw [addClamped_foldl_not_mem _ _ _ _ _ hps]

/-- The contribution the scatter of cell `cc` makes at point `p`. -/
def tvContribution (gw gh : Nat) (src : PollGrid) (cc p : Nat × Nat) : ℚ :=
  if p ∈ scatterTargets gw gh cc then src cc.2 cc.1 * POLLUTION_DIFFUSION_FACTOR
  else 0

lemma tvContribution_nonneg (gw gh : Nat) (src : PollGrid) (cc p : Nat × Nat)
    (h : 0 ≤ src cc.2 cc.1) : 0 ≤ tvContribution gw gh src cc p := by
  unfold tvContribution
  split_ifs with hm
  · unfold POLLUTION_DIFFUSION_FACTOR
    positivity
  · exact le_refl 0

lemma diffuseScatter_apply (gw gh : Nat) (src newG : PollGrid) (cc : Nat × Nat)
    (px py : Nat)
    (hb : newG py px + tvContribution gw gh src cc (px, py) ≤ 255) :
    (diffuseScatter gw gh src newG cc) py px =
      newG py px + tvContribution gw gh src cc (px, py) := by
  rw [diffuseScatter_eq]
  unfold tvContribution at hb ⊢
  by_cases hz : src cc.2 cc.1 = 0
  · rw [if_pos hz]
    split_ifs <;> simp [hz]
  · rw [if_neg hz]
    by_cases hm : (px, py) ∈ scatterTargets gw gh cc
    · rw [if_pos hm] at hb ⊢
      rw [addClamped_foldl_mem _ _ _ _ _ (scatterTargets_nodup gw gh cc) hm]
      unfold POLLUTION_DIFFUSION_MAX_VALUE
      exact min_eq_right hb
    · rw [if_neg hm] at hb ⊢
      rw [addClamped_foldl_not_mem _ _ _ _ _ hm]
      simp

lemma sum_map_zero {α : Type} (l : List α) (f : α → ℚ)
    (h : ∀ c ∈ l, f c = 0) : (l.map f).sum = 0 := by
  induction l with
  | nil => rfl
  | cons a l ih =>
    rw [List.map_cons, List.sum_cons, h a (by simp), ih (fun c hc => h c (by simp [hc]))]
    norm_num

lemma sum_map_single {α : Type} (l : List α) (f : α → ℚ) (c0 : α)
    (hf : ∀ c, c ≠ c0 → f c = 0) (hnd : l.Nodup) (hc : c0 ∈ l) :
    (l.map f).sum = f c0 := by
  obtain ⟨s, t, rfl⟩ := List.append_of_mem hc
  have hs0 : ∀ c ∈ s, f c = 0 := by
    intro c hcs
    refine hf c ?_
    intro hcc
    subst hcc
    exact (List.nodup_append.mp hnd).2.2 hcs (by simp)
  have ht0 : ∀ c ∈ t, f c = 0 := by
    intro c hct
    refine hf c ?_
    intro hcc
    subst hcc
    exact (List.nodup_cons.mp hnd.of_append_right).1 hct
  rw [List.map_append, List.sum_append, List.map_cons, List.sum_cons]
  rw [sum_map_zero s f hs0, sum_map_zero t f ht0]
  norm_num

lemma diffuse_foldl_apply (gw gh : Nat) (src : PollGrid) (px py : Nat) :
    ∀ (L : List (Nat × Nat)) (acc : PollGrid),
    (∀ cc ∈ L, 0 ≤ src cc.2 cc.1) →
    acc py px + (L.map (fun cc => tvContribution gw gh src cc (px, py))).sum ≤ 255 →
    (L.foldl (diffuseScatter gw gh src) acc) py px =
      acc py px + (L.map (fun cc => tvContribution gw gh src cc (px, py))).sum := by
  intro L
  induction L with
  | nil =>
    intro acc _ _
    simp
  | cons cc l ih =>
    intro acc hnn hb
    rw [List.map_cons, List.sum_cons] at hb ⊢
    have htv0 : 0 ≤ tvContribution gw gh src cc (px, py) :=
      tvContribution_nonneg gw gh src cc _ (hnn cc (by simp))
    have hrest0 : 0 ≤ (l.map (fun c2 => tvContribution gw gh src c2 (px, py))).sum := by
      refine List.sum_nonneg ?_
      intro q hq
      rw [List.mem_map] at hq
      obtain ⟨c2, hc2, rfl⟩ := hq
      exact tvContribution_nonneg gw gh src c2 _ (hnn c2 (by simp [hc2]))
    rw [List.foldl_cons]
    rw [ih _ (fun c2 h2 => hnn c2 (by simp [h2])) ?hb2]
    case hb2 =>
      rw [diffuseScatter_apply gw gh src acc cc px py (by linarith)]
      linarith
    rw [diffuseScatter_apply gw gh src acc cc px py (by linarith)]
    ring

lemma diffusePollution_apply (gw gh : Nat) (src : PollGrid) (px py : Nat)
    (hnn : ∀ a b : Nat, 0 ≤ src b a)
    (hb : ((cellsRowMajor gw gh).map
        (fun cc => tvContribution gw gh src cc (px, py))).sum ≤ 255) :
    (diffusePollution gw gh src) py px =
      ((cellsRowMajor gw gh).map
        (fun cc => tvContribution gw gh src cc (px, py))).sum := by
  unfold diffusePollution
  rw [diffuse_foldl_apply gw gh src px py _ _ (fun cc _ => hnn cc.1 cc.2) (by simpa using hb)]
  norm_num


/-- A Phase-1 coarse grid holding value `v` in the single cell `(cx, cy)`
and `0` everywhere else. -/
def singleSource (cx cy : Nat) (v : ℚ) : PollGrid :=
  fun gy gx => if gx = cx ∧ gy = cy then v else 0

lemma singleSource_nonneg (cx cy : Nat) (v : ℚ) (hv : 0 ≤ v) :
    ∀ a b : Nat, 0 ≤ singleSource cx cy v b a := by
  intro a b
  unfold singleSource
  split_ifs
  · exact hv
  · exact le_refl 0

lemma tvContribution_singleSource (gw gh cx cy : Nat) (v : ℚ) (cc p : Nat × Nat)
    (hne : cc ≠ (cx, cy)) :
    tvContribution gw gh (singleSource cx cy v) cc p = 0 := by
  unfold tvContribution singleSource
  have hni : ¬(cc.1 = cx ∧ cc.2 = cy) := by
    intro hh
    exact hne (Prod.ext hh.1 hh.2)
  rw [if_neg hni]
  split_ifs <;> norm_num

/-- After the first diffusion pass, a single-source grid holds `v/4` exactly
at the source cell and its in-bounds orthogonal neighbours. -/
lemma diffuse_single (gw gh cx cy : Nat) (v : ℚ) (hv0 : 0 ≤ v) (hv : v ≤ 255)
    (hcx : cx < gw) (hcy : cy < gh) (px py : Nat) :
    (diffusePollution gw gh (singleSource cx cy v)) py px =
      if (px, py) ∈ scatterTargets gw gh (cx, cy) then v * POLLUTION_DIFFUSION_FACTOR
      else 0 := by
  have hval : tvContribution gw gh (singleSource cx cy v) (cx, cy) (px, py) =
      if (px, py) ∈ scatterTargets gw gh (cx, cy) then v * POLLUTION_DIFFUSION_FACTOR
      else 0 := by
    unfold tvContribution singleSource
    dsimp only
    rw [if_pos (⟨rfl, rfl⟩ : cx = cx ∧ cy = cy)]
  have hsum : ((cellsRowMajor gw gh).map
      (fun cc => tvContribution gw gh (singleSource cx cy v) cc (px, py))).sum =
      tvContribution gw gh (singleSource cx cy v) (cx, cy) (px, py) :=
    sum_map_single _ _ _
      (fun c hc => tvContribution_singleSource gw gh cx cy v c _ hc)
      (cellsRowMajor_nodup gw gh) (mem_cellsRowMajor.mpr ⟨hcx, hcy⟩)
  have hb : ((cellsRowMajor gw gh).map
      (fun cc => tvContribution gw gh (singleSource cx cy v) cc (px, py))).sum ≤ 255 := by
    rw [hsum, hval]
    split_ifs
    · unfold POLLUTION_DIFFUSION_FACTOR
      linarith
    · norm_num
  rw [diffusePollution_apply gw gh _ px py (singleSource_nonneg cx cy v hv0) hb, hsum, hval]

lemma mem_ite_singleton (c : Prop) [Decidable c] (x y : Nat × Nat) :
    (x ∈ if c then [y] else ([] : List (Nat × Nat))) ↔ (c ∧ x = y) := by
  split_ifs with hc
  · simp [hc]
  · simp [hc]

lemma targetsCenter_cases (gw gh cx cy : Nat) (hcx1 : 1 ≤ cx) (hcx2 : cx + 1 < gw)
    (hcy1 : 1 ≤ cy) (hcy2 : cy + 1 < gh) (cc : Nat × Nat) :
    ((cx, cy) ∈ scatterTargets gw gh cc) ↔
      (cc = (cx, cy) ∨ cc = (cx, cy - 1) ∨ cc = (cx, cy + 1) ∨
       cc = (cx - 1, cy) ∨ cc = (cx + 1, cy)) := by
  obtain ⟨a, b⟩ := cc
  unfold scatterTargets
  simp only [List.mem_append, List.mem_singleton, mem_ite_singleton, Prod.ext_iff]
  omega

lemma mem_scatterTargets_center (gw gh cx cy : Nat) (hcx1 : 1 ≤ cx)
    (hcx2 : cx + 1 < gw) (hcy1 : 1 ≤ cy) (hcy2 : cy + 1 < gh) (p : Nat × Nat) :
    p ∈ scatterTargets gw gh (cx, cy) ↔
      (p = (cx, cy) ∨ p = (cx, cy - 1) ∨ p = (cx, cy + 1) ∨
       p = (cx - 1, cy) ∨ p = (cx + 1, cy)) := by
  obtain ⟨a, b⟩ := p
  unfold scatterTargets
  simp only [List.mem_append, List.mem_singleton, mem_ite_singleton, Prod.ext_iff]
  omega


lemma sum_map_add {α : Type} (l : List α) (f g : α → ℚ) :
    (l.map (fun c => f c + g c)).sum = (l.map f).sum + (l.map g).sum := by
  induction l with
  | nil => simp
  | cons a l ih =>
    simp only [List.map_cons, List.sum_cons, ih]
    ring

lemma sum_map_indicator {α : Type} [DecidableEq α] (l : List α) (c0 : α) (k : ℚ)
    (hnd : l.Nodup) (hc : c0 ∈ l) :
    (l.map (fun c => if c = c0 then k else 0)).sum = k := by
  rw [sum_map_single l _ c0 (fun c hcc => if_neg hcc) hnd hc, if_pos rfl]

/-- The second-pass contribution of cell `cc` at the source cell, written as a
sum of five point indicators: exactly the source and its four neighbours each
contribute `v/16`. -/
lemma pass2_contribution (gw gh cx cy : Nat) (v : ℚ) (hv0 : 0 ≤ v) (hv : v ≤ 255)
    (hcx1 : 1 ≤ cx) (hcx2 : cx + 1 < gw) (hcy1 : 1 ≤ cy) (hcy2 : cy + 1 < gh)
    (cc : Nat × Nat) :
    tvContribution gw gh (diffusePollution gw gh (singleSource cx cy v)) cc (cx, cy) =
      (if cc = (cx, cy) then v * (1/16) else 0) +
      (if cc = (cx, cy - 1) then v * (1/16) else 0) +
      (if cc = (cx, cy + 1) then v * (1/16) else 0) +
      (if cc = (cx - 1, cy) then v * (1/16) else 0) +
      (if cc = (cx + 1, cy) then v * (1/16) else 0) := by
  obtain ⟨a, b⟩ := cc
  unfold tvContribution
  rw [diffuse_single gw gh cx cy v hv0 hv (by omega) (by omega) a b]
  simp only [targetsCenter_cases gw gh cx cy hcx1 hcx2 hcy1 hcy2,
    mem_scatterTargets_center gw gh cx cy hcx1 hcx2 hcy1 hcy2, Prod.mk.injEq]
  split_ifs <;> first
    | (exfalso; omega)
    | (unfold POLLUTION_DIFFUSION_FACTOR; ring)
    | ring

/-- The total second-pass mass arriving at the source cell is `5 * v/16`. -/
lemma pass2_sum (gw gh cx cy : Nat) (v : ℚ) (hv0 : 0 ≤ v) (hv : v ≤ 255)
    (hcx1 : 1 ≤ cx) (hcx2 : cx + 1 < gw) (hcy1 : 1 ≤ cy) (hcy2 : cy + 1 < gh) :
    ((cellsRowMajor gw gh).map
      (fun cc => tvContribution gw gh (diffusePollution gw gh (singleSource cx cy v))
        cc (cx, cy))).sum = 5 * (v * (1/16)) := by
  rw [List.map_congr_left
    (fun cc _ => pass2_contribution gw gh cx cy v hv0 hv hcx1 hcx2 hcy1 hcy2 cc)]
  rw [sum_map_add, sum_map_add, sum_map_add, sum_map_add]
  rw [sum_map_indicator _ _ _ (cellsRowMajor_nodup gw gh)
      (mem_cellsRowMajor.mpr ⟨(by omega : cx < gw), (by omega : cy < gh)⟩)]
  rw [sum_map_indicator _ _ _ (cellsRowMajor_nodup gw gh)
      (mem_cellsRowMajor.mpr ⟨(by omega : cx < gw), (by omega : cy - 1 < gh)⟩)]
  rw [sum_map_indicator _ _ _ (cellsRowMajor_nodup gw gh)
      (mem_cellsRowMajor.mpr ⟨(by omega : cx < gw), (by omega : cy + 1 < gh)⟩)]
  rw [sum_map_indicator _ _ _ (cellsRowMajor_nodup gw gh)
      (mem_cellsRowMajor.mpr ⟨(by omega : cx - 1 < gw), (by omega : cy < gh)⟩)]
  rw [sum_map_indicator _ _ _ (cellsRowMajor_nodup gw gh)
      (mem_cellsRowMajor.mpr ⟨(by omega : cx + 1 < gw), (by omega : cy < gh)⟩)]
  ring

/-- C6: starting from a Phase-1 coarse grid that holds `v` (`0 < v ≤ 255`) in a
single cell with all four orthogonal neighbours in bounds and `0` elsewhere, the
two out-of-place diffusion passes of `updatePollution` leave exactly
`0.3125 * v = 5/16 * v` in the source cell; in Phase 3 each of that cell's four
constituent tiles reads back pollution `floor(0.3125 * v)`; and Phase 3 always
gives all four tiles of a 2x2 block the same value. -/
theorem C6_pollution_diffusion (gw gh cx cy : Nat) (v : ℚ)
    (hv0 : 0 < v) (hv : v ≤ 255)
    (hcx1 : 1 ≤ cx) (hcx2 : cx + 1 < gw) (hcy1 : 1 ≤ cy) (hcy2 : cy + 1 < gh) :
    (diffusePollution gw gh (diffusePollution gw gh (singleSource cx cy v))) cy cx
        = (5 / 16) * v ∧
    (∀ x y : Nat, x / 2 = cx → y / 2 = cy →
      pollutionPhase3Value
        (diffusePollution gw gh (diffusePollution gw gh (singleSource cx cy v))) x y
        = ⌊(5 / 16) * v⌋) ∧
    (∀ (g : PollGrid) (x y : Nat),
      pollutionPhase3Value g x y = pollutionPhase3Value g (2 * (x / 2)) (2 * (y / 2))) := by
  have hv0le : (0 : ℚ) ≤ v := le_of_lt hv0
  have hnn : ∀ a b : Nat, 0 ≤ (diffusePollution gw gh (singleSource cx cy v)) b a := by
    intro a b
    rw [diffuse_single gw gh cx cy v hv0le hv (by omega) (by omega) a b]
    split_ifs
    · unfold POLLUTION_DIFFUSION_FACTOR
      positivity
    · exact le_refl 0
  have hsum := pass2_sum gw gh cx cy v hv0le hv hcx1 hcx2 hcy1 hcy2
  have hb : ((cellsRowMajor gw gh).map
      (fun cc => tvContribution gw gh (diffusePollution gw gh (singleSource cx cy v))
        cc (cx, cy))).sum ≤ 255 := by
    rw [hsum]
    linarith
  have hmain :
      (diffusePollution gw gh (diffusePollution gw gh (singleSource cx cy v))) cy cx
        = (5 / 16) * v := by
    rw [diffusePollution_apply gw gh _ cx cy hnn hb, hsum]
    ring
  refine ⟨hmain, ?_, ?_⟩
  · intro x y hx hy
    unfold pollutionPhase3Value
    rw [hx, hy, hmain]
  · intro g x y
    unfold pollutionPhase3Value
    have h1 : 2 * (x / 2) / 2 = x / 2 := by omega
    have h2 : 2 * (y / 2) / 2 = y / 2 := by omega
    rw [h1, h2]

/-- Witness for C6: on a 3x3 coarse grid with value 16 in the centre, the
centre ends the two diffusion passes at exactly 5. -/
theorem C6_witness :
    (diffusePollution 3 3 (diffusePollution 3 3 (singleSource 1 1 (16 : ℚ)))) 1 1
      = (5 / 16) * 16 :=
  (C6_pollution_diffusion 3 3 1 1 16 (by norm_num) (by norm_num) (by norm_num)
    (by norm_num) (by norm_num) (by norm_num)).1


/-! ### Claim C2: the power-grid BFS and its supply cap
(`Simulation.updatePowerGrid`) -/

/-- One entry of `getPowerPlants()`. -/
structure Plant where
  x : Nat
  y : Nat
  ptype : String
  output : Nat
deriving DecidableEq, Repr

/-- JS `getPowerPlants()`: every main tile of a coal or nuclear power
plant, with its nominal `POWER_OUTPUT`. -/
def City.getPowerPlants (c : City) : List Plant :=
  (cellsRowMajor c.width c.height).foldl (fun acc cell =>
    let t := c.tiles cell.2 cell.1
    if t.isPowerPlant && t.isMainTile then
      acc ++ [{ x := cell.1, y := cell.2,
                ptype := if t.type == TILE_TYPES.COAL_POWER then "coal-power"
                         else "nuclear-power",
                output := if t.type == TILE_TYPES.COAL_POWER then POWER_OUTPUT_COAL
                          else POWER_OUTPUT_NUCLEAR }]
    else acc) []

/-- The reset loop of `updatePowerGrid`: `powered = false` on every tile
that is not a power plant. -/
def resetPower (c : City) : City :=
  { c with tiles := fun y x =>
      if x < c.width ∧ y < c.height then
        (if (c.tiles y x).isPowerPlant then c.tiles y x
         else { c.tiles y x with powered := false })
      else c.tiles y x }

/-- The seeding loop of `updatePowerGrid`: for each plant, look its
building up by the main tile's `buildingId` and push every footprint
cell (row by row).  A plant whose lookup fails seeds nothing but still
counted toward `totalPower`. -/
def powerSeedQueue (c : City) : List (Int × Int) :=
  c.getPowerPlants.flatMap (fun pl =>
    match c.getTile pl.x pl.y with
    | none => []
    | some t =>
      match c.buildingsGet t.buildingId with
      | none => []
      | some b =>
        (List.range b.height).flatMap (fun dy =>
          (List.range b.width).map (fun dx =>
            ((pl.x + dx : Int), (pl.y + dy : Int)))))

/-- The mutable state of the BFS loop: the city grid (for the `powered`
flags), the visited set, the queue and the consumption counter. -/
structure PowerState where
  city : City
  visited : List (Int × Int)
  queue : List (Int × Int)
  powerConsumed : Nat

/-- JS `while (queue.length > 0 && powerConsumed < totalPower) { ... }`
of `updatePowerGrid`, with explicit fuel.  One iteration shifts a
coordinate, skips it if visited or out of bounds, powers a conducting
tile (counting zone/building tiles against the supply) and enqueues its
conducting unvisited neighbours. -/
def powerBFS (totalPower : Nat) : Nat → PowerState → PowerState
  | 0, s => s
  | fuel + 1, s =>
    match s.queue with
    | [] => s
    | p :: rest =>
      if totalPower ≤ s.powerConsumed then s
      else if s.visited.contains p then
        powerBFS totalPower fuel { s with queue := rest }
      else
        let visited2 := p :: s.visited
        match s.city.getTileI p.1 p.2 with
        | none => powerBFS totalPower fuel { s with queue := rest, visited := visited2 }
        | some tile =>
          if tile.conductsPower || tile.isPowerPlant then
            let city2 :=
              if !tile.powered then
                s.city.setTileAt p.1.toNat p.2.toNat { tile with powered := true }
              else s.city
            let consumed2 :=
              if !tile.powered && (tile.isZone || tile.isBuilding) then
                s.powerConsumed + 1
              else s.powerConsumed
            let neighbors : List (Int × Int) :=
              [(p.1 - 1, p.2), (p.1 + 1, p.2), (p.1, p.2 - 1), (p.1, p.2 + 1)]
            let queue2 := rest ++ neighbors.filter (fun n =>
              !(visited2.contains n) &&
              ((city2.getTileI n.1 n.2).elim false
                (fun nt => nt.conductsPower || nt.isPowerPlant)))
            powerBFS totalPower fuel
              { city := city2, visited := visited2, queue := queue2,
                powerConsumed := consumed2 }
          else
            powerBFS totalPower fuel { s with queue := rest, visited := visited2 }

/-- JS `updatePowerGrid()`: reset the `powered` flags, tally the plant
outputs into `totalPower`, seed the queue with the plant footprints and
run the BFS.  Returns the final loop state together with `totalPower`. -/
def Simulation.updatePowerGrid (fuel : Nat) (c : City) : PowerState × Nat :=
  let c1 := resetPower c
  let totalPower := c1.getPowerPlants.foldl (fun acc p => acc + p.output) 0
  (powerBFS totalPower fuel
    { city := c1, visited := [], queue := powerSeedQueue c1, powerConsumed := 0 },
   totalPower)

/-- C2 (amended): the BFS loop condition re-checks
`powerConsumed < totalPower` before every dequeue, so the moment the cap
is reached the loop exits unconditionally: the coordinates still sitting
in the queue are not dequeued and not marked powered — contrary to the
claim that already-queued nodes still get marked. -/
theorem C2_power_cap (totalPower fuel : Nat) (s : PowerState)
    (hcap : totalPower ≤ s.powerConsumed) :
    powerBFS totalPower fuel s = s := by
  cases fuel with
  | zero => rfl
  | succ n =>
    unfold powerBFS
    cases hq : s.queue with
    | nil => rfl
    | cons p rest =>
      dsimp only
      rw [if_pos hcap]

/-- Witness for the cap-exit theorem at a concrete saturated state: with
the counter already at the cap, the queued coordinate survives the loop
untouched. -/
def cityC2w : City :=
  { width := 1, height := 1, tiles := fun _ _ => Tile.new 0 0,
    buildings := [], nextBuildingId := 1 }

/-- A saturated BFS state: one coordinate queued, counter at the cap. -/
def psC2w : PowerState :=
  { city := cityC2w, visited := [], queue := [(0, 0)], powerConsumed := 1 }

theorem C2_witness : (1 : Nat) ≤ 1 ∧ powerBFS 1 5 psC2w = psC2w :=
  ⟨le_refl 1, C2_power_cap 1 5 psC2w (le_refl 1)⟩


/-- C2 counterexample city: a 202x1 map holding a coal plant main tile
(output 200) registered as a 1x1 building, followed by a corridor of 201
residential building tiles — demand 201 exceeds supply 200.  (Such a
state is representable e.g. through `City.deserialize`.) -/
def c2PlantTile : Tile :=
  { Tile.new 0 0 with type := TILE_TYPES.COAL_POWER, buildingId := some 1,
                      isMainTile := true, buildingWidth := 1, buildingHeight := 1 }

def c2CorrTile (x : Nat) : Tile :=
  { Tile.new x 0 with type := TILE_TYPES.BUILDING_RESIDENTIAL }

def cityC2 : City :=
  { width := 202, height := 1,
    tiles := fun _ x => if x = 0 then c2PlantTile else c2CorrTile x,
    buildings := [(1, { id := 1, btype := "coal-power", x := 0, y := 0,
                        width := 1, height := 1 })],
    nextBuildingId := 2 }

/-- The observable divergence from the claim, as one closed computation:
the pass ends with consumption pinned at the cap (200 = totalPower), the
conducting corridor tile (201, 0) still sitting in the queue, and that
tile unpowered. -/
def c2Check : Bool :=
  let r := Simulation.updatePowerGrid 600 cityC2
  (r.1.queue == [((201 : Int), (0 : Int))]) &&
  (r.1.powerConsumed == 200) &&
  (r.2 == 200) &&
  ((r.1.city.tiles 0 201).conductsPower) &&
  (!(r.1.city.tiles 0 201).powered)

set_option maxRecDepth 1000000 in
set_option maxHeartbeats 4000000 in
/-- C2 counterexample: on `cityC2`, demand (201 corridor tiles) exceeds
supply (200); the BFS stops the moment `powerConsumed` reaches
`totalPower`, leaving the queued conducting tile `(201, 0)` undequeued
and unpowered — the claim says it would still be dequeued and marked. -/
theorem C2_counterexample : c2Check = true := by rfl

end ClaudeCity
